import Mathlib

/-!
# Verification of the secretar session-orchestration core

A shallow embedding of the chat-pairing, notification, booking and
role-routing logic of the repository (`src/database.py`,
`src/handlers/chat.py`, `src/handlers/login.py`, `src/handlers/logout.py`,
`src/handlers/service_record.py`), together with theorems settling the
design-document claims about it.

Modelling conventions:
* the PostgreSQL tables (`chats`, `notifications`, `service_records`,
  `users`) become lists of rows inside a `Db` structure; each SQL
  statement of `database.py` becomes a pure function on `Db`;
* each user's aiogram `FSMContext` becomes a `Session` value (a state
  tag plus a payload record whose fields are the `update_data` keys the
  embedded handlers use); `state.clear()` is the default session;
* the Telegram transport is a trace of `Ev` events; `bot.send_message`
  to a user who has blocked the bot records an undelivered event and the
  handler takes its `TelegramForbiddenError` branch; `message.answer`
  and `callback.answer`/`edit_text` reply to the acting user, who has
  just produced an update and is therefore reachable;
* external boundaries that are out of scope (bcrypt password check,
  `datetime.strptime` parsing, HTML validity of a notification text)
  are passed in as explicit oracle parameters, so every theorem below
  quantifies over their behaviour;
* reply-keyboard markup is not modelled, only message texts and
  destinations.
-/

namespace Secretar

/-- The two user roles, the `role` column of `notifications`. -/
inductive Role where
  | client
  | provider
deriving DecidableEq, Repr

/-- A row of the `chats` table: participants plus the `is_active` flag
(`database.py`, chat section). -/
structure Chat where
  id : Nat
  clientId : Nat
  providerId : Nat
  isActive : Bool
deriving DecidableEq, Repr

/-- A row of the `notifications` table (`database.py`): owner, role,
text, creation stamp (`created_at`) and the `is_read` flag. -/
structure Notification where
  userId : Nat
  role : Role
  text : String
  createdAt : Nat
  isRead : Bool
deriving DecidableEq, Repr

/-- A row of the `users` table, restricted to the columns the embedded
handlers read. -/
structure UserRow where
  telegramId : Nat
  userCode : String
  firstName : Option String
  lastName : Option String
  passwordHash : Option String
deriving DecidableEq, Repr

/-- A calendar date as stored in the booking payload (day, month, year),
produced by the `datetime.strptime` boundary. -/
structure DateVal where
  day : Nat
  month : Nat
  year : Nat
deriving DecidableEq, Repr

/-- A time of day (hour, minute) from the `strptime` boundary. -/
structure TimeVal where
  hour : Nat
  minute : Nat
deriving DecidableEq, Repr

/-- A row of the `service_records` table as inserted by
`create_service_record` (status is always `'active'` on insert). -/
structure ServiceRecord where
  providerId : Nat
  clientId : Nat
  serviceName : String
  cost : Nat
  address : String
  date : DateVal
  time : TimeVal
  comments : String
  status : String
deriving DecidableEq, Repr

/-- The relational store: one list per table, plus the `SERIAL` counter
for chat ids and a monotone stamp standing for `created_at = NOW()`. -/
structure Db where
  chats : List Chat
  nextChatId : Nat
  notifications : List Notification
  nextStamp : Nat
  records : List ServiceRecord
  users : List UserRow
deriving DecidableEq, Repr

/-! ## database.py -/

/-- `create_chat`: `INSERT INTO chats (client_telegram_id,
provider_telegram_id) VALUES ($1,$2) RETURNING id`; a fresh chat row is
active. Returns the new id and the updated store. -/
def create_chat (db : Db) (clientId providerId : Nat) : Nat × Db :=
  (db.nextChatId,
    { db with
        chats := db.chats ++ [⟨db.nextChatId, clientId, providerId, true⟩]
        nextChatId := db.nextChatId + 1 })

/-- `SELECT * FROM chats WHERE client_telegram_id = $1 AND is_active = true`
(`fetchrow` returns the first matching row or `None`). -/
def get_active_chat_by_client (db : Db) (clientId : Nat) : Option Chat :=
  (db.chats.filter fun c => c.clientId == clientId && c.isActive).head?

/-- `SELECT * FROM chats WHERE provider_telegram_id = $1 AND is_active = true`. -/
def get_active_chat_by_provider (db : Db) (providerId : Nat) : Option Chat :=
  (db.chats.filter fun c => c.providerId == providerId && c.isActive).head?

/-- `close_chat`: `UPDATE chats SET is_active = false WHERE id = $1`. -/
def close_chat (db : Db) (chatId : Nat) : Db :=
  { db with
      chats := db.chats.map fun c =>
        if c.id == chatId then { c with isActive := false } else c }

/-- `get_user_telegram_id_by_code`: `SELECT telegram_id FROM users WHERE
user_code = $1`. -/
def get_user_telegram_id_by_code (db : Db) (userCode : String) : Option Nat :=
  ((db.users.filter fun u => u.userCode == userCode).head?).map (·.telegramId)

/-- `get_user_name`: `SELECT first_name, last_name, user_code FROM users
WHERE telegram_id = $1` (whole row returned for convenience). -/
def get_user_name (db : Db) (telegramId : Nat) : Option UserRow :=
  (db.users.filter fun u => u.telegramId == telegramId).head?

/-- `is_user_registered`: `SELECT 1 FROM users WHERE telegram_id = $1`. -/
def is_user_registered (db : Db) (telegramId : Nat) : Bool :=
  db.users.any fun u => u.telegramId == telegramId

/-- `get_password_hash`: the stored bcrypt hash, if any. -/
def get_password_hash (db : Db) (telegramId : Nat) : Option String :=
  (get_user_name db telegramId).bind (·.passwordHash)

/-- `create_notification`: `INSERT INTO notifications (user_telegram_id,
role, message_text) VALUES ($1,$2,$3)`; `created_at` defaults to `NOW()`,
`is_read` to false. -/
def create_notification (db : Db) (telegramId : Nat) (role : Role)
    (messageText : String) : Db :=
  { db with
      notifications :=
        db.notifications ++ [⟨telegramId, role, messageText, db.nextStamp, false⟩]
      nextStamp := db.nextStamp + 1 }

/-- The unread rows of one `(user, role)` pair, in table order. -/
def unreadFor (db : Db) (telegramId : Nat) (role : Role) : List Notification :=
  db.notifications.filter fun n =>
    n.userId == telegramId && n.role == role && !n.isRead

/-- `get_unread_count`: `SELECT COUNT(*) FROM notifications WHERE
user_telegram_id = $1 AND role = $2 AND is_read = false`. -/
def get_unread_count (db : Db) (telegramId : Nat) (role : Role) : Nat :=
  (unreadFor db telegramId role).length

/-- `mark_notifications_as_read`: `UPDATE notifications SET is_read = true
WHERE user_telegram_id = $1 AND role = $2 AND is_read = false`. -/
def mark_notifications_as_read (db : Db) (telegramId : Nat) (role : Role) : Db :=
  { db with
      notifications := db.notifications.map fun n =>
        if n.userId == telegramId && n.role == role && !n.isRead then
          { n with isRead := true }
        else n }

/-- Insert a notification into a list sorted by `createdAt`. -/
def insertByStamp (n : Notification) : List Notification → List Notification
  | [] => [n]
  | m :: ms =>
      if n.createdAt ≤ m.createdAt then n :: m :: ms else m :: insertByStamp n ms

/-- Sort a notification list by `createdAt` (the `ORDER BY created_at`). -/
def sortByStamp : List Notification → List Notification
  | [] => []
  | n :: ns => insertByStamp n (sortByStamp ns)

/-- `get_unread_notifications`: `SELECT message_text, created_at FROM
notifications WHERE user_telegram_id = $1 AND role = $2 AND is_read =
false ORDER BY created_at`. -/
def get_unread_notifications (db : Db) (telegramId : Nat) (role : Role) :
    List Notification :=
  sortByStamp (unreadFor db telegramId role)

/-- `create_service_record`: insert with status `'active'`. -/
def create_service_record (db : Db) (providerId clientId : Nat)
    (serviceName : String) (cost : Nat) (address : String)
    (date : DateVal) (time : TimeVal) (comments : String) : Db :=
  { db with
      records :=
        db.records ++
          [⟨providerId, clientId, serviceName, cost, address, date, time, comments,
            "active"⟩] }

/-! ## Sessions, transport, world -/

/-- The aiogram FSM state tags used by the embedded handlers
(`FSMstates.py`); `idle` is aiogram's "no state". -/
inductive Fsm where
  | idle
  | loginWaitingForPassword
  | authAuthorized
  | clientWaitingForProviderId
  | clientInChat
  | providerInChat
  | recWaitingForClientId
  | recWaitingForServiceName
  | recWaitingForCost
  | recWaitingForAddress
  | recWaitingForDate
  | recWaitingForTime
  | recWaitingForComments
deriving DecidableEq, Repr

/-- The `FSMContext` data dictionary, restricted to the keys the embedded
handlers read or write; an absent key is `none`. -/
structure Payload where
  userRole : Option Role := none
  role : Option Role := none
  loginAttempts : Option Nat := none
  chatId : Option Nat := none
  partnerId : Option Nat := none
  clientTelegramId : Option Nat := none
  fromChat : Option Bool := none
  serviceName : Option String := none
  cost : Option String := none
  address : Option String := none
  date : Option DateVal := none
  time : Option TimeVal := none
deriving DecidableEq, Repr

/-- One user's conversational session: state tag plus payload.
`state.clear()` resets both. -/
structure Session where
  fsm : Fsm := .idle
  data : Payload := {}
deriving DecidableEq, Repr

/-- An observable transport event: a message sent (or attempted) to a
user, or the batch read-marking of a notification queue. -/
inductive Ev where
  | sent (dest : Nat) (text : String) (delivered : Bool)
  | markedRead (userId : Nat) (role : Role)
deriving DecidableEq, Repr

/-- The whole system state: store, per-user sessions, event trace. -/
structure World where
  db : Db
  sessions : Nat → Session
  events : List Ev

/-- Record a `bot.send_message` attempt; it is delivered unless the
recipient has blocked the bot. -/
def send (w : World) (dest : Nat) (text : String) (delivered : Bool) : World :=
  { w with events := w.events ++ [.sent dest text delivered] }

/-- `message.answer` / `callback.answer` / `edit_text`: a reply to the
acting user, always deliverable. -/
def answer (w : World) (uid : Nat) (text : String) : World :=
  send w uid text true

/-- Point update of the session table. -/
def setSession (ss : Nat → Session) (uid : Nat) (s : Session) : Nat → Session :=
  fun v => if v == uid then s else ss v

/-- `state.set_state(...)`: replaces the tag, keeps the data. -/
def setState (w : World) (uid : Nat) (f : Fsm) : World :=
  { w with sessions := setSession w.sessions uid { w.sessions uid with fsm := f } }

/-- `state.update_data(...)`: merges a patch into the payload. -/
def updData (w : World) (uid : Nat) (patch : Payload → Payload) : World :=
  { w with
      sessions :=
        setSession w.sessions uid
          { w.sessions uid with data := patch ((w.sessions uid).data) } }

/-- `state.clear()`: back to no state and empty data. -/
def clearSession (w : World) (uid : Nat) : World :=
  { w with sessions := setSession w.sessions uid {} }

/-- Mark a `(user, role)` queue as read, recording the batch event. -/
def markRead (w : World) (uid : Nat) (role : Role) : World :=
  { w with
      db := mark_notifications_as_read w.db uid role
      events := w.events ++ [.markedRead uid role] }

/-- Python truthiness of `data.get(key)` for an integer-valued key:
false on a missing key and on `0`. -/
def truthy : Option Nat → Bool
  | none => false
  | some n => n != 0

/-- Python `str.strip()`: drop leading and trailing whitespace. -/
def pyTrim (s : String) : String :=
  String.mk
    (((s.data.dropWhile Char.isWhitespace).reverse.dropWhile Char.isWhitespace).reverse)

/-- Python `str.startswith(prefixText)`. -/
def pyStartsWith (s prefixText : String) : Bool :=
  prefixText.data.isPrefixOf s.data

/-- Python `int(s)` on an all-digit string. -/
def pyToNat (s : String) : Nat :=
  s.data.foldl (fun n c => n * 10 + (c.toNat - '0'.toNat)) 0

/-- Python `" ".join(parts)`. -/
def pyJoinSpace (parts : List String) : String :=
  String.join (parts.intersperse " ")

/-- `user_code.isdigit() and len(user_code) == 6`. -/
def isSixDigitCode (s : String) : Bool :=
  !(s == "") && s.data.all Char.isDigit && s.length == 6

/-- `message.text.isdigit()` (cost validation). -/
def pyIsDigits (s : String) : Bool :=
  !(s == "") && s.data.all Char.isDigit

/-- Python slicing `text[:3997] + "..."` applied when `len(text) > 4000`
(the transport's maximum message size guard used by the handlers). -/
def pyTruncate (s : String) : String :=
  if s.length > 4000 then String.mk (s.data.take 3997) ++ "..." else s

/-- `text.replace("<", "").replace(">", "")`: strip the HTML markup. -/
def pyStripAngle (s : String) : String :=
  String.mk (s.data.filter fun c => !(c == '<') && !(c == '>'))

/-! ## handlers/chat.py -/

/-- `f"{first_name or ''} {last_name or ''}".strip() or "Клиент"`; `none`
when `get_user_name` found no row (the source then raises inside the
`try` and the broad `except` swallows it). -/
def clientDisplay (db : Db) (clientId : Nat) : Option String :=
  (get_user_name db clientId).map fun u =>
    let s := pyTrim ((u.firstName.getD "") ++ " " ++ (u.lastName.getD ""))
    if s == "" then "Клиент" else s

/-- `close_chat_and_offer_record(chat_id, provider_id, client_id, bot)`:
closes the chat row, offers the provider a booking (failure swallowed),
then tells the client the chat is over (failure swallowed). -/
def close_chat_and_offer_record (unreach : Nat → Bool) (w : World)
    (chatId providerId clientId : Nat) : World :=
  let w1 := { w with db := close_chat w.db chatId }
  let w2 :=
    match clientDisplay w1.db clientId with
    | none => w1
    | some name =>
        send w1 providerId
          ("Чат с " ++ name ++
            " завершён.\nХотите создать запись на услугу для этого клиента?")
          (!unreach providerId)
  send w2 clientId "Чат с мастером завершён." (!unreach clientId)

/-- `start_contact` (text "Связаться с мастером"): refuse when the client
already has an active chat, otherwise prompt for the provider code. -/
def start_contact (w : World) (uid : Nat) : World :=
  match get_active_chat_by_client w.db uid with
  | some _ => answer w uid "У вас уже есть активный чат с мастером."
  | none =>
      let w1 := answer w uid "Введите 6-значный ID мастера:"
      setState w1 uid .clientWaitingForProviderId

/-- `process_provider_id` (state `ClientChatStates.waiting_for_provider_id`):
validate the code, create the chat, push the request to the provider.
The self-pairing guard of the source is commented out ("ОТЛАДКА"), so a
request to the user's own code proceeds like any other. -/
def process_provider_id (unreach : Nat → Bool) (w : World) (uid : Nat)
    (text : String) : World :=
  let userCode := pyTrim text
  if !isSixDigitCode userCode then
    answer w uid "Неверный формат ID. Введите 6 цифр:"
  else
    match get_user_telegram_id_by_code w.db userCode with
    | none => answer w uid "Мастер с таким ID не найден. Попробуйте снова:"
    | some providerTelegramId =>
        let res := create_chat w.db uid providerTelegramId
        let chatId := res.1
        let w1 := { w with db := res.2 }
        let requestText := "🔔 Запрос от клиента (ID: " ++ userCode ++ ")\nПринять?"
        if unreach providerTelegramId then
          let w2 := send w1 providerTelegramId requestText false
          let w3 := answer w2 uid "Не удалось отправить запрос: мастер заблокировал бота."
          { w3 with db := close_chat w3.db chatId }
        else
          let w2 := send w1 providerTelegramId requestText true
          let w3 := answer w2 uid "Запрос отправлен мастеру. Ожидайте ответа."
          let w4 := setState w3 uid .clientInChat
          let w5 := updData w4 uid fun d =>
            { d with chatId := some chatId, partnerId := some providerTelegramId,
                     userRole := some .client }
          answer w5 uid "Чат начат. Нажмите «Завершить чат», чтобы остановить общение."

/-- `accept_chat` (callback `accept_chat_<id>`): verify the chat is still
the provider's current active chat, then notify both sides and enter the
relay state. `callback.answer()` with no text is not an observable
message and is not recorded. -/
def accept_chat (unreach : Nat → Bool) (w : World) (pid chatId : Nat) : World :=
  match get_active_chat_by_provider w.db pid with
  | none => answer w pid "Чат уже закрыт или не найден."
  | some activeChat =>
      if activeChat.id != chatId then
        answer w pid "Чат уже закрыт или не найден."
      else
        let clientId := activeChat.clientId
        let acceptedText := "✅ Мастер принял ваш запрос! Теперь вы можете писать друг другу."
        let providerText :=
          "✅ Вы приняли запрос! Теперь вы можете писать клиенту.\nНажмите «Завершить чат», чтобы остановить общение."
        if unreach clientId then
          let w1 := send w clientId acceptedText false
          let w2 := answer w1 pid "Клиент заблокировал бота."
          { w2 with db := close_chat w2.db chatId }
        else
          let w1 := send w clientId acceptedText true
          if unreach pid then
            let w2 := send w1 pid providerText false
            let w3 := answer w2 pid "Клиент заблокировал бота."
            { w3 with db := close_chat w3.db chatId }
          else
            let w2 := send w1 pid providerText true
            let w3 := setState w2 pid .providerInChat
            let w4 := updData w3 pid fun d =>
              { d with chatId := some chatId, partnerId := some clientId,
                       userRole := some .provider }
            answer w4 pid "Чат активен."

/-- `reject_chat` (callback `reject_chat_<id>`): close the chat and tell
the client, when the reference still matches; always acknowledge. -/
def reject_chat (unreach : Nat → Bool) (w : World) (pid chatId : Nat) : World :=
  let w1 :=
    match get_active_chat_by_provider w.db pid with
    | some activeChat =>
        if activeChat.id == chatId then
          let w2 := send w activeChat.clientId "❌ Мастер отклонил ваш запрос."
            (!unreach activeChat.clientId)
          { w2 with db := close_chat w2.db chatId }
        else w
    | none => w
  let w3 := answer w1 pid "Запрос отклонён."
  answer w3 pid "Запрос отклонён."

/-- `handle_create_record_no`: back to the provider menu. -/
def handle_create_record_no (w : World) (pid : Nat) : World :=
  let w1 := answer w pid "Вы вернулись в меню."
  updData w1 pid fun d => { d with userRole := some .provider }

/-- `handle_create_record_yes`: look the client up by chat id and start
the booking workflow with the counterpart prefilled. -/
def handle_create_record_yes (w : World) (pid chatId : Nat) : World :=
  match (w.db.chats.filter fun c => c.id == chatId).head? with
  | none => answer w pid "Чат не найден."
  | some row =>
      let w1 := answer w pid "Введите название услуги:"
      let w2 := updData w1 pid fun d =>
        { d with clientTelegramId := some row.clientId, fromChat := some true,
                 userRole := some .provider }
      setState w2 pid .recWaitingForServiceName

/-- `client_end_chat` (state `in_chat`, text "Завершить чат"). -/
def client_end_chat (unreach : Nat → Bool) (w : World) (uid : Nat) : World :=
  let d := (w.sessions uid).data
  let w1 :=
    if truthy d.chatId && truthy d.partnerId then
      close_chat_and_offer_record unreach w (d.chatId.getD 0) (d.partnerId.getD 0) uid
    else w
  let w2 := answer w1 uid "Вы вышли из чата."
  clearSession w2 uid

/-- `provider_end_chat` (state `in_chat`, text "Завершить чат"). -/
def provider_end_chat (unreach : Nat → Bool) (w : World) (uid : Nat) : World :=
  let d := (w.sessions uid).data
  let w1 :=
    if truthy d.chatId && truthy d.partnerId then
      close_chat_and_offer_record unreach w (d.chatId.getD 0) uid (d.partnerId.getD 0)
    else w
  let w2 := answer w1 uid "Вы вышли из чата."
  clearSession w2 uid

/-- `forward_from_client` (state `in_chat`, any other text): relay to the
provider; if the provider is unreachable, close and clear. -/
def forward_from_client (unreach : Nat → Bool) (w : World) (uid : Nat)
    (text : String) : World :=
  let d := (w.sessions uid).data
  if !truthy d.partnerId then
    let w1 := answer w uid "Ошибка сессии."
    clearSession w1 uid
  else
    let partnerId := d.partnerId.getD 0
    let relayText := "Сообщение от клиента:\n\n" ++ text
    if !unreach partnerId then
      send w partnerId relayText true
    else
      let w1 := send w partnerId relayText false
      let w2 :=
        if truthy d.chatId then
          close_chat_and_offer_record unreach w1 (d.chatId.getD 0) partnerId uid
        else w1
      let w3 := answer w2 uid "Мастер заблокировал бота. Чат завершён."
      clearSession w3 uid

/-- `forward_from_provider` (state `in_chat`, any other text): relay to
the client; if the client is unreachable, close and clear. -/
def forward_from_provider (unreach : Nat → Bool) (w : World) (uid : Nat)
    (text : String) : World :=
  let d := (w.sessions uid).data
  if !truthy d.partnerId then
    let w1 := answer w uid "Ошибка сессии."
    clearSession w1 uid
  else
    let partnerId := d.partnerId.getD 0
    let relayText := "Сообщение от мастера:\n\n" ++ text
    if !unreach partnerId then
      send w partnerId relayText true
    else
      let w1 := send w partnerId relayText false
      let w2 :=
        if truthy d.chatId then
          close_chat_and_offer_record unreach w1 (d.chatId.getD 0) uid partnerId
        else w1
      let w3 := answer w2 uid "Клиент заблокировал бота. Чат завершён."
      clearSession w3 uid

/-! ## handlers/logout.py -/

/-- The tail of `return_to_role_menu` once a role is known: show that
role's menu and re-record the role in the payload. -/
def finishRoleMenu (w : World) (uid : Nat) (r : Role) : World :=
  let w1 :=
    if r == .provider then answer w uid "Вы в меню мастера."
    else answer w uid "Вы в меню клиента."
  updData w1 uid fun d => { d with userRole := some r }

/-- `return_to_role_menu(message, state, role)`: explicit argument, then
the session's `user_role`, then the unread-count heuristic; on the
ambiguous outcome show the main menu (role choice for registered users)
and clear the session. -/
def return_to_role_menu (w : World) (uid : Nat) (roleArg : Option Role) : World :=
  let role :=
    match roleArg with
    | some r => some r
    | none => (w.sessions uid).data.userRole
  match role with
  | some r => finishRoleMenu w uid r
  | none =>
      let clientCount := get_unread_count w.db uid .client
      let providerCount := get_unread_count w.db uid .provider
      if providerCount > 0 && clientCount == 0 then
        finishRoleMenu w uid .provider
      else if clientCount > 0 && providerCount == 0 then
        finishRoleMenu w uid .client
      else
        let w1 :=
          if is_user_registered w.db uid then
            answer w uid "Выберите роль для входа:"
          else
            answer w uid "Вы в главном меню."
        clearSession w1 uid

/-- `logout_account` (text "Выйти из аккаунта"): back to the main menu,
session cleared. -/
def logout_account (w : World) (uid : Nat) : World :=
  let w1 :=
    if is_user_registered w.db uid then
      answer w uid "Вы вышли из аккаунта."
    else
      answer w uid "Вы в главном меню."
  clearSession w1 uid

/-- `back_to_menu` (text "В меню", no state filter, first router). -/
def back_to_menu (w : World) (uid : Nat) : World :=
  return_to_role_menu w uid none

/-! ## handlers/login.py -/

/-- `login_start` (texts "Войти как клиент…" / "Войти как предоставитель
услуги…"): record the role, reset the attempt counter, ask for the
password. -/
def login_start (w : World) (uid : Nat) (text : String) : World :=
  if !is_user_registered w.db uid then
    answer w uid "Вы не зарегистрированы. Сначала зарегистрируйтесь."
  else
    let role : Role :=
      if pyStartsWith text "Войти как предоставитель" then .provider else .client
    let w1 := updData w uid fun d =>
      { d with role := some role, loginAttempts := some 0, userRole := some role }
    let w2 := setState w1 uid .loginWaitingForPassword
    answer w2 uid "Введите ваш пароль:"

/-- One iteration of the notification loop of `login_check_password`:
truncate, try the HTML send, fall back to the stripped text when the
transport rejects the markup (`htmlOk` is the markup-validity oracle). -/
def renderNotification (htmlOk : String → Bool) (w : World) (uid : Nat)
    (text : String) : World :=
  let t := pyTruncate text
  if htmlOk t then answer w uid t
  else
    let w1 := send w uid t false
    answer w1 uid (pyStripAngle t)

/-- `login_check_password` (state `LoginStates.waiting_for_password`);
`pwOk` is the result of the bcrypt comparison (the credential boundary).
On success: authorize, render every unread notification of the login
role in queue order, mark the queue read in one batch, show the menu.
On a missing `role` key the source raises `KeyError`; that path is
modelled as no observable effect. -/
def login_check_password (htmlOk : String → Bool) (pwOk : Bool) (w : World)
    (uid : Nat) : World :=
  let storedHash := get_password_hash w.db uid
  let d := (w.sessions uid).data
  if storedHash == none || !pwOk then
    let attempts := d.loginAttempts.getD 0 + 1
    let w1 := updData w uid fun p => { p with loginAttempts := some attempts }
    if attempts ≥ 3 then
      answer w1 uid ("❌ Неверный пароль. Достигнуто " ++ toString attempts ++
        " неудачных попыток.\nХотите сбросить пароль?")
    else
      answer w1 uid ("Неверный пароль. Попытка " ++ toString attempts ++
        " из 3. Попробуйте снова:")
  else
    match d.role with
    | none => w
    | some role =>
        let roleName := if role == .provider then "предоставитель услуги" else "клиент"
        let w1 := setState w uid .authAuthorized
        let unreadMsgs := get_unread_notifications w1.db uid role
        let w2 :=
          if unreadMsgs.isEmpty then w1
          else
            let w2a := answer w1 uid "У вас есть непрочитанные уведомления:"
            let w2b := unreadMsgs.foldl
              (fun acc msg => renderNotification htmlOk acc uid msg.text) w2a
            markRead w2b uid role
        answer w2 uid ("✅ Добро пожаловать, " ++ roleName ++ "!")

/-! ## handlers/service_record.py -/

/-- Zero-padded two-digit rendering (`strftime` field). -/
def fmtTwo (n : Nat) : String :=
  if n < 10 then "0" ++ toString n else toString n

/-- `time.strftime('%H:%M')`. -/
def fmtTime (t : TimeVal) : String := fmtTwo t.hour ++ ":" ++ fmtTwo t.minute

/-- `date.strftime('%d.%m.%Y')`. -/
def fmtDate (d : DateVal) : String :=
  fmtTwo d.day ++ "." ++ fmtTwo d.month ++ "." ++ toString d.year

/-- Insert a record into a list sorted by service time. -/
def insertByTime (r : ServiceRecord) : List ServiceRecord → List ServiceRecord
  | [] => [r]
  | x :: xs =>
      if r.time.hour * 60 + r.time.minute ≤ x.time.hour * 60 + x.time.minute then
        r :: x :: xs
      else x :: insertByTime r xs

/-- Sort records by service time (`ORDER BY service_time`). -/
def sortByTime : List ServiceRecord → List ServiceRecord
  | [] => []
  | r :: rs => insertByTime r (sortByTime rs)

/-- `get_records_by_date_for_provider`: `SELECT … WHERE
provider_telegram_id = $1 AND service_date = $2 AND status != 'completed'
ORDER BY service_time`. -/
def get_records_by_date_for_provider (db : Db) (pid : Nat) (d : DateVal) :
    List ServiceRecord :=
  sortByTime (db.records.filter fun r =>
    r.providerId == pid && r.date == d && !(r.status == "completed"))

/-- The prompt for the client id (shared tail of
`start_service_record_from_menu`). -/
def askClientIdStep (w : World) (uid : Nat) : World :=
  let w1 := answer w uid "Введите 6-значный ID клиента:"
  setState w1 uid .recWaitingForClientId

/-- `start_service_record_from_menu` (text "Добавить запись"): reuse a
prefilled counterpart, else the active chat's client, else ask for the
client code. -/
def start_service_record_from_menu (w : World) (uid : Nat) : World :=
  let d := (w.sessions uid).data
  if truthy d.clientTelegramId then
    let w1 := answer w uid "Введите название услуги:"
    setState w1 uid .recWaitingForServiceName
  else
    let w1 := updData w uid fun p =>
      { p with clientTelegramId := none, fromChat := some false }
    match get_active_chat_by_provider w1.db uid with
    | some activeChat =>
        if activeChat.isActive then
          let w2 := updData w1 uid fun p =>
            { p with clientTelegramId := some activeChat.clientId, fromChat := some true }
          let w3 := answer w2 uid "Введите название услуги:"
          setState w3 uid .recWaitingForServiceName
        else askClientIdStep w1 uid
    | none => askClientIdStep w1 uid

/-- The in-handler cancel branch shared by every booking step:
`state.clear()` followed by `return_to_role_menu(..., role="provider")`. -/
def bookingCancelStep (w : World) (uid : Nat) : World :=
  let w1 := clearSession w uid
  return_to_role_menu w1 uid (some .provider)

/-- `process_client_id` (state `waiting_for_client_id`). -/
def process_client_id (w : World) (uid : Nat) (text : String) : World :=
  if text == "В меню" then bookingCancelStep w uid
  else
    let userCode := pyTrim text
    if !isSixDigitCode userCode then
      answer w uid "Неверный формат ID. Введите 6 цифр:"
    else
      match get_user_telegram_id_by_code w.db userCode with
      | none => answer w uid "Клиент с таким ID не найден. Попробуйте снова:"
      | some clientTelegramId =>
          let w1 := updData w uid fun p =>
            { p with clientTelegramId := some clientTelegramId, fromChat := some false }
          let w2 := answer w1 uid "Введите название услуги:"
          setState w2 uid .recWaitingForServiceName

/-- `process_service_name` (state `waiting_for_service_name`). -/
def process_service_name (w : World) (uid : Nat) (text : String) : World :=
  if text == "В меню" then bookingCancelStep w uid
  else
    let w1 := updData w uid fun p => { p with serviceName := some text }
    let w2 := answer w1 uid "Введите стоимость услуги (в рублях):"
    setState w2 uid .recWaitingForCost

/-- `process_cost` (state `waiting_for_cost`). -/
def process_cost (w : World) (uid : Nat) (text : String) : World :=
  if text == "В меню" then bookingCancelStep w uid
  else if !pyIsDigits text then
    answer w uid "Введите число (без букв и символов):"
  else
    let w1 := updData w uid fun p => { p with cost := some text }
    let w2 := answer w1 uid "Введите адрес проведения услуги:"
    setState w2 uid .recWaitingForAddress

/-- `process_address` (state `waiting_for_address`). -/
def process_address (w : World) (uid : Nat) (text : String) : World :=
  if text == "В меню" then bookingCancelStep w uid
  else
    let w1 := updData w uid fun p => { p with address := some text }
    let w2 := answer w1 uid "Введите дату (например, 15.12.2025):"
    setState w2 uid .recWaitingForDate

/-- The advisory listing of existing records on the chosen date. -/
def recordsOnDateMessage (recs : List ServiceRecord) : String :=
  "На эту дату уже есть записи:\n" ++
    String.join (recs.map fun r => "• " ++ fmtTime r.time ++ " — " ++ r.serviceName ++ "\n") ++
    "\nВведите время (например, 14:30):"

/-- `process_date` (state `waiting_for_date`); `strptimeDate` is the
`datetime.strptime` boundary covering both accepted formats. -/
def process_date (strptimeDate : String → Option DateVal) (w : World)
    (uid : Nat) (text : String) : World :=
  if text == "В меню" then bookingCancelStep w uid
  else
    match strptimeDate (pyTrim text) with
    | none => answer w uid "Неверный формат даты. Используйте ДД.ММ.ГГГГ или ГГГГ-ММ-ДД:"
    | some dateObj =>
        let w1 := updData w uid fun p => { p with date := some dateObj }
        let recs := get_records_by_date_for_provider w1.db uid dateObj
        let w2 :=
          if recs.isEmpty then
            answer w1 uid "На эту дату нет записей.\nВведите время (например, 14:30):"
          else answer w1 uid (recordsOnDateMessage recs)
        setState w2 uid .recWaitingForTime

/-- `process_time` (state `waiting_for_time`); `strptimeTime` is the
`%H:%M` parsing boundary. -/
def process_time (strptimeTime : String → Option TimeVal) (w : World)
    (uid : Nat) (text : String) : World :=
  if text == "В меню" then bookingCancelStep w uid
  else
    match strptimeTime (pyTrim text) with
    | none => answer w uid "Неверный формат времени. Используйте ЧЧ:ММ:"
    | some timeObj =>
        let w1 := updData w uid fun p => { p with time := some timeObj }
        let w2 := answer w1 uid "Введите комментарии (или '-' если нет):"
        setState w2 uid .recWaitingForComments

/-- The notification body built by `process_comments_and_send`. -/
def recordText (db : Db) (clientId : Nat) (serviceName cost address : String)
    (dateObj : DateVal) (timeObj : TimeVal) (comments : String) : String :=
  let clientInfo := get_user_name db clientId
  let clientName :=
    match clientInfo with
    | some u =>
        let parts :=
          (match u.firstName with
           | some f => if f == "" then [] else [f]
           | none => []) ++
          (match u.lastName with
           | some l => if l == "" then [] else [l]
           | none => [])
        if parts.isEmpty then "Клиент" else pyJoinSpace parts
    | none => "Клиент"
  let clientCode :=
    match clientInfo with
    | some u => u.userCode
    | none => "???"
  pyTruncate
    ("📄 <b>Новая запись на услугу</b>\n\n" ++
      "🔹 Услуга: " ++ serviceName ++ "\n" ++
      "🔹 Стоимость: " ++ cost ++ " руб.\n" ++
      "🔹 Клиент: " ++ clientName ++ " (ID: " ++ clientCode ++ ")\n" ++
      "🔹 Адрес: " ++ address ++ "\n" ++
      "🔹 Дата: " ++ fmtDate dateObj ++ "\n" ++
      "🔹 Время: " ++ fmtTime timeObj ++ "\n" ++
      "🔹 Комментарии: " ++ comments)

/-- `process_comments_and_send` (state `waiting_for_comments`): commit
the booking, enqueue the notifications for both sides (the client's only
when the booking is not for the provider themselves — and never a direct
transport send to the client), return to the recorded role's menu. A
missing payload field would raise `KeyError` in the source and is
modelled as no observable effect. -/
def process_comments_and_send (w : World) (uid : Nat) (text : String) : World :=
  if text == "В меню" then bookingCancelStep w uid
  else
    let comments := if text == "-" then "Комментариев нет" else text
    let d := (w.sessions uid).data
    match d.clientTelegramId, d.serviceName, d.cost, d.address, d.date, d.time with
    | some clientId, some serviceName, some cost, some address, some dateObj, some timeObj =>
        let w1 := { w with
          db := create_service_record w.db uid clientId serviceName
            (pyToNat cost) address dateObj timeObj comments }
        let noteText := recordText w1.db clientId serviceName cost address dateObj timeObj comments
        let w2 := { w1 with db := create_notification w1.db uid .provider noteText }
        let w3 :=
          if clientId != uid then
            { w2 with db := create_notification w2.db clientId .client noteText }
          else w2
        let w4 :=
          if clientId != uid then
            answer w3 uid "✅ Запись сохранена. Клиент получит уведомление при входе как клиент."
          else answer w3 uid "✅ Запись сохранена."
        let role := ((w4.sessions uid).data.userRole).getD .client
        let w5 := clearSession w4 uid
        let w6 := updData w5 uid fun p => { p with userRole := some role }
        answer w6 uid "Вы вернулись в меню."
    | _, _, _, _, _, _ => w

/-! ## The dispatcher

`main.py` includes the routers in a fixed order (logout first, then
start, registration, login, password reset, chat, service record, …);
aiogram hands a text message to the first handler, in that order, whose
filters all pass, and stops. The routers between logout and login and
after service record match only the `/start` command, their own FSM
states (absent from `Fsm`) or button texts that never occur in the
theorems below, so they are transparent here. -/

/-- Text-message dispatch over the embedded handlers, in the source's
router and registration order. -/
def dispatchText (unreach : Nat → Bool) (pwOk : Bool) (htmlOk : String → Bool)
    (strptimeDate : String → Option DateVal) (strptimeTime : String → Option TimeVal)
    (w : World) (uid : Nat) (text : String) : World :=
  let s := w.sessions uid
  if text == "Выйти из аккаунта" then logout_account w uid
  else if text == "В меню" then back_to_menu w uid
  else if pyStartsWith text "Войти как клиент" ||
      pyStartsWith text "Войти как предоставитель услуги" then login_start w uid text
  else if s.fsm == .loginWaitingForPassword then login_check_password htmlOk pwOk w uid
  else if text == "Связаться с мастером" then start_contact w uid
  else if s.fsm == .clientWaitingForProviderId then process_provider_id unreach w uid text
  else if s.fsm == .clientInChat && text == "Завершить чат" then client_end_chat unreach w uid
  else if s.fsm == .providerInChat && text == "Завершить чат" then provider_end_chat unreach w uid
  else if s.fsm == .clientInChat then forward_from_client unreach w uid text
  else if s.fsm == .providerInChat then forward_from_provider unreach w uid text
  else if text == "Добавить запись" then start_service_record_from_menu w uid
  else if s.fsm == .recWaitingForClientId then process_client_id w uid text
  else if s.fsm == .recWaitingForServiceName then process_service_name w uid text
  else if s.fsm == .recWaitingForCost then process_cost w uid text
  else if s.fsm == .recWaitingForAddress then process_address w uid text
  else if s.fsm == .recWaitingForDate then process_date strptimeDate w uid text
  else if s.fsm == .recWaitingForTime then process_time strptimeTime w uid text
  else if s.fsm == .recWaitingForComments then process_comments_and_send w uid text
  else w

/-! ## Reachability

A step is one unit of work of some user: one of the chat handlers above
(with its dispatch precondition), or — since only `handlers/chat.py`
ever writes the `chats` table or enters
`ClientChatStates.waiting_for_provider_id` — an arbitrary environment
step standing for every other handler of the repository: it may rewrite
sessions (without moving a user *into* `waiting_for_provider_id`, which
only `start_contact` does), notifications, bookings, users and the
trace, but leaves the `chats` table and its id counter alone. -/

/-- The non-terminal chats of one client (`is_active` rows). -/
def activeClientChats (db : Db) (u : Nat) : List Chat :=
  db.chats.filter fun c => c.clientId == u && c.isActive

/-- The non-terminal chats of one provider. -/
def activeProviderChats (db : Db) (u : Nat) : List Chat :=
  db.chats.filter fun c => c.providerId == u && c.isActive

/-- One unit of work of the composed system. -/
inductive Step : World → World → Prop
  | ofStartContact (w : World) (uid : Nat) : Step w (start_contact w uid)
  | ofProcessProviderId (w : World) (unreach : Nat → Bool) (uid : Nat) (text : String)
      (h : (w.sessions uid).fsm = .clientWaitingForProviderId) :
      Step w (process_provider_id unreach w uid text)
  | ofAcceptChat (w : World) (unreach : Nat → Bool) (pid chatId : Nat) :
      Step w (accept_chat unreach w pid chatId)
  | ofRejectChat (w : World) (unreach : Nat → Bool) (pid chatId : Nat) :
      Step w (reject_chat unreach w pid chatId)
  | ofClientEndChat (w : World) (unreach : Nat → Bool) (uid : Nat)
      (h : (w.sessions uid).fsm = .clientInChat) :
      Step w (client_end_chat unreach w uid)
  | ofProviderEndChat (w : World) (unreach : Nat → Bool) (uid : Nat)
      (h : (w.sessions uid).fsm = .providerInChat) :
      Step w (provider_end_chat unreach w uid)
  | ofForwardFromClient (w : World) (unreach : Nat → Bool) (uid : Nat) (text : String)
      (h : (w.sessions uid).fsm = .clientInChat) :
      Step w (forward_from_client unreach w uid text)
  | ofForwardFromProvider (w : World) (unreach : Nat → Bool) (uid : Nat) (text : String)
      (h : (w.sessions uid).fsm = .providerInChat) :
      Step w (forward_from_provider unreach w uid text)
  | ofEnv (w : World) (ss : Nat → Session) (notifs : List Notification)
      (recs : List ServiceRecord) (users : List UserRow) (stamp : Nat) (evs : List Ev)
      (hfsm : ∀ u, (ss u).fsm = .clientWaitingForProviderId →
        (w.sessions u).fsm = .clientWaitingForProviderId) :
      Step w
        ⟨{ chats := w.db.chats, nextChatId := w.db.nextChatId,
           notifications := notifs, nextStamp := stamp, records := recs,
           users := users }, ss, evs⟩

/-- A fresh deployment over a given registered-user table: no chats
(`SERIAL` ids start at 1), no notifications, no bookings, every session
idle and empty. -/
def initWorld (users : List UserRow) : World :=
  ⟨{ chats := [], nextChatId := 1, notifications := [], nextStamp := 0,
     records := [], users := users }, fun _ => {}, []⟩

/-- Reachability from a fresh deployment. -/
def Reachable (users : List UserRow) (w : World) : Prop :=
  Relation.ReflTransGen Step (initWorld users) w

/-! ## Concrete fixtures used by the counterexamples -/

/-- Three registered users: 1 and 2 act as clients, 3 as a provider. -/
def demoUsers : List UserRow :=
  [⟨1, "000001", some "Анна", none, some "h1"⟩,
   ⟨2, "000002", none, none, some "h2"⟩,
   ⟨3, "000003", some "Борис", none, some "h3"⟩]

/-- A transport where everyone is reachable. -/
def nofail : Nat → Bool := fun _ => false

/-! ## Projection lemmas -/

@[simp] lemma db_send (w : World) (d : Nat) (t : String) (b : Bool) :
    (send w d t b).db = w.db := rfl

@[simp] lemma sessions_send (w : World) (d : Nat) (t : String) (b : Bool) :
    (send w d t b).sessions = w.sessions := rfl

@[simp] lemma db_answer (w : World) (u : Nat) (t : String) :
    (answer w u t).db = w.db := rfl

@[simp] lemma sessions_answer (w : World) (u : Nat) (t : String) :
    (answer w u t).sessions = w.sessions := rfl

@[simp] lemma db_setState (w : World) (u : Nat) (f : Fsm) :
    (setState w u f).db = w.db := rfl

@[simp] lemma db_updData (w : World) (u : Nat) (g : Payload → Payload) :
    (updData w u g).db = w.db := rfl

@[simp] lemma db_clearSession (w : World) (u : Nat) :
    (clearSession w u).db = w.db := rfl

@[simp] lemma setSession_apply (ss : Nat → Session) (uid : Nat) (s : Session) (v : Nat) :
    setSession ss uid s v = if v == uid then s else ss v := rfl

@[simp] lemma events_setState (w : World) (u : Nat) (f : Fsm) :
    (setState w u f).events = w.events := rfl

@[simp] lemma events_updData (w : World) (u : Nat) (g : Payload → Payload) :
    (updData w u g).events = w.events := rfl

@[simp] lemma events_clearSession (w : World) (u : Nat) :
    (clearSession w u).events = w.events := rfl

@[simp] lemma sessions_setState (w : World) (uid : Nat) (f : Fsm) (v : Nat) :
    (setState w uid f).sessions v =
      if v == uid then { w.sessions uid with fsm := f } else w.sessions v := rfl

@[simp] lemma sessions_updData (w : World) (uid : Nat) (g : Payload → Payload) (v : Nat) :
    (updData w uid g).sessions v =
      if v == uid then { w.sessions uid with data := g ((w.sessions uid).data) }
      else w.sessions v := rfl

@[simp] lemma sessions_clearSession (w : World) (uid : Nat) (v : Nat) :
    (clearSession w uid).sessions v = if v == uid then {} else w.sessions v := rfl

@[simp] lemma fsm_updData (w : World) (uid : Nat) (g : Payload → Payload) (v : Nat) :
    ((updData w uid g).sessions v).fsm = (w.sessions v).fsm := by
  by_cases h : v = uid <;> simp [h]

lemma db_close_chat_and_offer_record (unreach : Nat → Bool) (w : World)
    (chatId pId cId : Nat) :
    (close_chat_and_offer_record unreach w chatId pId cId).db = close_chat w.db chatId := by
  unfold close_chat_and_offer_record
  cases h : clientDisplay (close_chat w.db chatId) cId <;> simp [h]

lemma sessions_close_chat_and_offer_record (unreach : Nat → Bool) (w : World)
    (chatId pId cId : Nat) :
    (close_chat_and_offer_record unreach w chatId pId cId).sessions = w.sessions := by
  unfold close_chat_and_offer_record
  cases h : clientDisplay (close_chat w.db chatId) cId <;> simp [h]

/-! ## The per-client uniqueness invariant (claim C1) -/

/-- The invariant carried through reachability: chat ids are below the id
counter; every client has at most one non-terminal chat; a client
sitting at the provider-code prompt (the state `start_contact` guards)
has none. -/
def ChatInvCore (db : Db) (ss : Nat → Session) : Prop :=
  (∀ c ∈ db.chats, c.id < db.nextChatId) ∧
  ∀ u, (activeClientChats db u).length ≤ 1 ∧
    ((ss u).fsm = .clientWaitingForProviderId → activeClientChats db u = [])

/-- `ChatInvCore` over a whole world. -/
def ChatInv (w : World) : Prop := ChatInvCore w.db w.sessions

/-- Closing a chat only deactivates rows: the filtered active list
shrinks to a sublist. -/
lemma filter_close_sublist (i : Nat) (p : Chat → Bool)
    (hp : ∀ c : Chat, p { c with isActive := false } = false) :
    ∀ l : List Chat,
      List.Sublist
        ((l.map fun c => if c.id == i then { c with isActive := false } else c).filter p)
        (l.filter p) := by
  intro l
  induction l with
  | nil => simp
  | cons c cs ih =>
      simp only [List.map_cons, List.filter_cons]
      by_cases hc : (c.id == i) = true
      · simp only [hc, if_true, hp, Bool.false_eq_true, if_false]
        by_cases hpc : p c = true
        · simp only [hpc, if_true]
          exact ih.trans (List.sublist_cons_self c _)
        · simp only [Bool.not_eq_true] at hpc
          simp only [hpc, Bool.false_eq_true, if_false]
          exact ih
      · simp only [Bool.not_eq_true] at hc
        simp only [hc, Bool.false_eq_true, if_false]
        by_cases hpc : p c = true
        · simp only [hpc, if_true]
          exact ih.cons₂ c
        · simp only [Bool.not_eq_true] at hpc
          simp only [hpc, Bool.false_eq_true, if_false]
          exact ih

lemma activeClientChats_close_sublist (db : Db) (i u : Nat) :
    List.Sublist (activeClientChats (close_chat db i) u) (activeClientChats db u) := by
  unfold activeClientChats close_chat
  exact filter_close_sublist i _ (by intro c; simp) db.chats

lemma activeClientChats_close_length (db : Db) (i u : Nat) :
    (activeClientChats (close_chat db i) u).length ≤ (activeClientChats db u).length :=
  (activeClientChats_close_sublist db i u).length_le

lemma activeClientChats_close_nil (db : Db) (i u : Nat)
    (h : activeClientChats db u = []) :
    activeClientChats (close_chat db i) u = [] := by
  have := activeClientChats_close_sublist db i u
  rw [h] at this
  exact List.sublist_nil.mp this

/-- Appending a fresh chat row extends one client's active list. -/
lemma activeClientChats_create (db : Db) (cId pId u : Nat) :
    activeClientChats (create_chat db cId pId).2 u =
      activeClientChats db u ++
        if cId == u then [⟨db.nextChatId, cId, pId, true⟩] else [] := by
  unfold activeClientChats create_chat
  rw [List.filter_append]
  by_cases h : (cId == u) = true
  · simp [h]
  · simp only [Bool.not_eq_true] at h
    simp [h]

/-- Ids stay below the counter through `close_chat`. -/
lemma wf_close (db : Db) (i : Nat) (n : Nat)
    (h : ∀ c ∈ db.chats, c.id < n) :
    ∀ c ∈ (close_chat db i).chats, c.id < n := by
  intro c hc
  unfold close_chat at hc
  simp only [List.mem_map] at hc
  obtain ⟨c0, hc0, rfl⟩ := hc
  by_cases hid : (c0.id == i) = true <;> simp [hid] <;> exact h c0 hc0

/-- Ids stay below the bumped counter through `create_chat`. -/
lemma wf_create (db : Db) (cId pId : Nat)
    (h : ∀ c ∈ db.chats, c.id < db.nextChatId) :
    ∀ c ∈ (create_chat db cId pId).2.chats, c.id < (create_chat db cId pId).2.nextChatId := by
  intro c hc
  unfold create_chat at hc ⊢
  simp only [List.mem_append, List.mem_singleton] at hc
  rcases hc with hc | rfl
  · exact Nat.lt_succ_of_lt (h c hc)
  · exact Nat.lt_succ_self _

/-- Closing the row just created restores every client's active list
(fresh ids never collide with existing rows). -/
lemma activeClientChats_close_fresh (db : Db) (cId pId u : Nat)
    (hwf : ∀ c ∈ db.chats, c.id < db.nextChatId) :
    activeClientChats (close_chat (create_chat db cId pId).2 db.nextChatId) u =
      activeClientChats db u := by
  unfold activeClientChats close_chat create_chat
  simp only [List.map_append]
  have hmap :
      (db.chats.map fun c =>
        if c.id == db.nextChatId then { c with isActive := false } else c) = db.chats := by
    have := List.map_congr_left (l := db.chats)
      (f := fun c => if c.id == db.nextChatId then { c with isActive := false } else c)
      (g := id) ?_
    · simpa using this
    · intro c hc
      have : c.id ≠ db.nextChatId := Nat.ne_of_lt (hwf c hc)
      simp [this]
  rw [hmap, List.filter_append]
  simp

@[simp] lemma sessionsFun_setState (w : World) (uid : Nat) (f : Fsm) :
    (setState w uid f).sessions =
      setSession w.sessions uid { w.sessions uid with fsm := f } := rfl

@[simp] lemma sessionsFun_updData (w : World) (uid : Nat) (g : Payload → Payload) :
    (updData w uid g).sessions =
      setSession w.sessions uid { w.sessions uid with data := g ((w.sessions uid).data) } := rfl

@[simp] lemma sessionsFun_clearSession (w : World) (uid : Nat) :
    (clearSession w uid).sessions = setSession w.sessions uid {} := rfl

lemma chatInvCore_close (db : Db) (ss : Nat → Session) (i : Nat)
    (h : ChatInvCore db ss) : ChatInvCore (close_chat db i) ss := by
  obtain ⟨hwf, hu⟩ := h
  refine ⟨wf_close db i _ hwf, fun u => ?_⟩
  exact ⟨le_trans (activeClientChats_close_length db i u) (hu u).1,
    fun hf => activeClientChats_close_nil db i u ((hu u).2 hf)⟩

lemma chatInvCore_sessions (db : Db) (ss ss' : Nat → Session)
    (h : ChatInvCore db ss)
    (hss : ∀ u, (ss' u).fsm = .clientWaitingForProviderId →
      (ss u).fsm = .clientWaitingForProviderId) :
    ChatInvCore db ss' :=
  ⟨h.1, fun u => ⟨(h.2 u).1, fun hf => (h.2 u).2 (hss u hf)⟩⟩

lemma chatInv_start_contact (w : World) (uid : Nat) (h : ChatInv w) :
    ChatInv (start_contact w uid) := by
  unfold ChatInv start_contact
  cases hg : get_active_chat_by_client w.db uid with
  | some c => exact h
  | none =>
      have hempty : activeClientChats w.db uid = [] := by
        unfold get_active_chat_by_client at hg
        exact List.head?_eq_none_iff.mp hg
      refine ⟨h.1, fun u => ⟨(h.2 u).1, fun hf => ?_⟩⟩
      by_cases hv : u = uid
      · subst hv; exact hempty
      · refine (h.2 u).2 ?_
        simpa [hv] using hf

lemma chatInv_process_provider_id (unreach : Nat → Bool) (w : World) (uid : Nat)
    (text : String) (hpre : (w.sessions uid).fsm = .clientWaitingForProviderId)
    (h : ChatInv w) : ChatInv (process_provider_id unreach w uid text) := by
  unfold ChatInv process_provider_id
  by_cases hfmt : (!isSixDigitCode (pyTrim text)) = true
  · simp only [hfmt, if_true]; exact h
  · simp only [Bool.not_eq_true] at hfmt
    simp only [hfmt, Bool.false_eq_true, if_false]
    cases hlook : get_user_telegram_id_by_code w.db (pyTrim text) with
    | none => exact h
    | some pid =>
        by_cases hun : unreach pid = true
        · simp only [hun, if_true]
          show ChatInvCore
            (close_chat (create_chat w.db uid pid).2 w.db.nextChatId) w.sessions
          refine ⟨wf_close _ _ _ (wf_create w.db uid pid h.1), fun u => ?_⟩
          rw [activeClientChats_close_fresh w.db uid pid u h.1]
          exact ⟨(h.2 u).1, fun hf => (h.2 u).2 hf⟩
        · simp only [Bool.not_eq_true] at hun
          simp only [hun, Bool.false_eq_true, if_false]
          simp only [db_answer, db_updData, db_setState, db_send, sessions_answer,
            sessionsFun_updData, sessionsFun_setState, sessions_send]
          refine ⟨wf_create w.db uid pid h.1, fun u => ?_⟩
          have hcr := activeClientChats_create w.db uid pid u
          by_cases hv : u = uid
          · subst hv
            have h0 : activeClientChats w.db u = [] := (h.2 u).2 hpre
            refine ⟨?_, fun hf => ?_⟩
            · rw [hcr, h0]; simp
            · simp at hf
          · have hb : (uid == u) = false := by
              simp only [beq_eq_false_iff_ne, ne_eq]
              exact fun hq => hv hq.symm
            refine ⟨?_, fun hf => ?_⟩
            · rw [hcr]; simpa [hb] using (h.2 u).1
            · rw [hcr]
              simp only [hb, Bool.false_eq_true, if_false, List.append_nil]
              refine (h.2 u).2 ?_
              simpa [hv] using hf

lemma chatInv_accept_chat (unreach : Nat → Bool) (w : World) (pid chatId : Nat)
    (h : ChatInv w) : ChatInv (accept_chat unreach w pid chatId) := by
  unfold ChatInv accept_chat
  cases hg : get_active_chat_by_provider w.db pid with
  | none => exact h
  | some activeChat =>
      by_cases hid : (activeChat.id != chatId) = true
      · simp only [hid, if_true]; exact h
      · simp only [Bool.not_eq_true] at hid
        simp only [hid, Bool.false_eq_true, if_false]
        by_cases hcu : unreach activeChat.clientId = true
        · simp only [hcu, if_true]
          exact chatInvCore_close w.db w.sessions chatId h
        · simp only [Bool.not_eq_true] at hcu
          simp only [hcu, Bool.false_eq_true, if_false]
          by_cases hpu : unreach pid = true
          · simp only [hpu, if_true]
            exact chatInvCore_close w.db w.sessions chatId h
          · simp only [Bool.not_eq_true] at hpu
            simp only [hpu, Bool.false_eq_true, if_false]
            refine chatInvCore_sessions w.db w.sessions _ h ?_
            intro u hf
            by_cases hv : u = pid
            · subst hv; simp at hf
            · simpa [hv] using hf

lemma chatInv_reject_chat (unreach : Nat → Bool) (w : World) (pid chatId : Nat)
    (h : ChatInv w) : ChatInv (reject_chat unreach w pid chatId) := by
  unfold ChatInv reject_chat
  cases hg : get_active_chat_by_provider w.db pid with
  | none => exact h
  | some activeChat =>
      by_cases hid : (activeChat.id == chatId) = true
      · simp only [hid, if_true]
        exact chatInvCore_close w.db w.sessions chatId h
      · simp only [Bool.not_eq_true] at hid
        simp only [hid, Bool.false_eq_true, if_false]
        exact h

lemma chatInv_clearTail (w : World) (uid : Nat) (h : ChatInvCore w.db w.sessions) :
    ChatInvCore w.db (setSession w.sessions uid {}) := by
  refine chatInvCore_sessions w.db w.sessions _ h ?_
  intro u hf
  by_cases hv : u = uid
  · subst hv; simp at hf
  · simpa [hv] using hf

lemma chatInv_client_end_chat (unreach : Nat → Bool) (w : World) (uid : Nat)
    (h : ChatInv w) : ChatInv (client_end_chat unreach w uid) := by
  unfold ChatInv client_end_chat
  by_cases hc : (truthy (w.sessions uid).data.chatId &&
      truthy (w.sessions uid).data.partnerId) = true
  · simp only [hc, if_true, db_answer, db_close_chat_and_offer_record,
      sessionsFun_clearSession, sessions_answer, sessions_close_chat_and_offer_record,
      db_clearSession]
    exact chatInv_clearTail ⟨close_chat w.db _, w.sessions, w.events⟩ uid
      (chatInvCore_close w.db w.sessions _ h)
  · simp only [Bool.not_eq_true] at hc
    simp only [hc, Bool.false_eq_true, if_false, db_answer, db_clearSession,
      sessionsFun_clearSession, sessions_answer]
    exact chatInv_clearTail w uid h

lemma chatInv_provider_end_chat (unreach : Nat → Bool) (w : World) (uid : Nat)
    (h : ChatInv w) : ChatInv (provider_end_chat unreach w uid) := by
  unfold ChatInv provider_end_chat
  by_cases hc : (truthy (w.sessions uid).data.chatId &&
      truthy (w.sessions uid).data.partnerId) = true
  · simp only [hc, if_true, db_answer, db_close_chat_and_offer_record,
      sessionsFun_clearSession, sessions_answer, sessions_close_chat_and_offer_record,
      db_clearSession]
    exact chatInv_clearTail ⟨close_chat w.db _, w.sessions, w.events⟩ uid
      (chatInvCore_close w.db w.sessions _ h)
  · simp only [Bool.not_eq_true] at hc
    simp only [hc, Bool.false_eq_true, if_false, db_answer, db_clearSession,
      sessionsFun_clearSession, sessions_answer]
    exact chatInv_clearTail w uid h

lemma chatInv_forward_from_client (unreach : Nat → Bool) (w : World) (uid : Nat)
    (text : String) (h : ChatInv w) : ChatInv (forward_from_client unreach w uid text) := by
  unfold ChatInv forward_from_client
  by_cases hp : (!truthy (w.sessions uid).data.partnerId) = true
  · simp only [hp, if_true, db_clearSession, db_answer, sessionsFun_clearSession,
      sessions_answer]
    exact chatInv_clearTail w uid h
  · simp only [Bool.not_eq_true] at hp
    simp only [hp, Bool.false_eq_true, if_false]
    by_cases hr : (!unreach ((w.sessions uid).data.partnerId.getD 0)) = true
    · simp only [hr, if_true]; exact h
    · simp only [Bool.not_eq_true] at hr
      simp only [hr, Bool.false_eq_true, if_false]
      by_cases hcid : truthy (w.sessions uid).data.chatId = true
      · simp only [hcid, if_true, db_clearSession, db_answer,
          db_close_chat_and_offer_record, db_send, sessionsFun_clearSession,
          sessions_answer, sessions_close_chat_and_offer_record, sessions_send]
        exact chatInv_clearTail ⟨close_chat w.db _, w.sessions, w.events⟩ uid
          (chatInvCore_close w.db w.sessions _ h)
      · simp only [Bool.not_eq_true] at hcid
        simp only [hcid, Bool.false_eq_true, if_false, db_clearSession, db_answer,
          db_send, sessionsFun_clearSession, sessions_answer, sessions_send]
        exact chatInv_clearTail w uid h

lemma chatInv_forward_from_provider (unreach : Nat → Bool) (w : World) (uid : Nat)
    (text : String) (h : ChatInv w) : ChatInv (forward_from_provider unreach w uid text) := by
  unfold ChatInv forward_from_provider
  by_cases hp : (!truthy (w.sessions uid).data.partnerId) = true
  · simp only [hp, if_true, db_clearSession, db_answer, sessionsFun_clearSession,
      sessions_answer]
    exact chatInv_clearTail w uid h
  · simp only [Bool.not_eq_true] at hp
    simp only [hp, Bool.false_eq_true, if_false]
    by_cases hr : (!unreach ((w.sessions uid).data.partnerId.getD 0)) = true
    · simp only [hr, if_true]; exact h
    · simp only [Bool.not_eq_true] at hr
      simp only [hr, Bool.false_eq_true, if_false]
      by_cases hcid : truthy (w.sessions uid).data.chatId = true
      · simp only [hcid, if_true, db_clearSession, db_answer,
          db_close_chat_and_offer_record, db_send, sessionsFun_clearSession,
          sessions_answer, sessions_close_chat_and_offer_record, sessions_send]
        exact chatInv_clearTail ⟨close_chat w.db _, w.sessions, w.events⟩ uid
          (chatInvCore_close w.db w.sessions _ h)
      · simp only [Bool.not_eq_true] at hcid
        simp only [hcid, Bool.false_eq_true, if_false, db_clearSession, db_answer,
          db_send, sessionsFun_clearSession, sessions_answer, sessions_send]
        exact chatInv_clearTail w uid h

/-- Every step preserves the invariant. -/
lemma chatInv_step (w w' : World) (hs : Step w w') (h : ChatInv w) : ChatInv w' := by
  cases hs with
  | ofStartContact uid => exact chatInv_start_contact w uid h
  | ofProcessProviderId unreach uid text hpre =>
      exact chatInv_process_provider_id unreach w uid text hpre h
  | ofAcceptChat unreach pid chatId => exact chatInv_accept_chat unreach w pid chatId h
  | ofRejectChat unreach pid chatId => exact chatInv_reject_chat unreach w pid chatId h
  | ofClientEndChat unreach uid hpre => exact chatInv_client_end_chat unreach w uid h
  | ofProviderEndChat unreach uid hpre => exact chatInv_provider_end_chat unreach w uid h
  | ofForwardFromClient unreach uid text hpre =>
      exact chatInv_forward_from_client unreach w uid text h
  | ofForwardFromProvider unreach uid text hpre =>
      exact chatInv_forward_from_provider unreach w uid text h
  | ofEnv ss notifs recs users stamp evs hfsm =>
      exact ⟨h.1, fun u => ⟨(h.2 u).1, fun hf => (h.2 u).2 (hfsm u hf)⟩⟩

/-- Every reachable world satisfies the invariant. -/
lemma chatInv_reachable (users : List UserRow) (w : World) (h : Reachable users w) :
    ChatInv w := by
  induction h with
  | refl => exact ⟨by simp [initWorld], fun u => ⟨by simp [initWorld, activeClientChats], by simp [initWorld, activeClientChats]⟩⟩
  | tail _ hstep ih => exact chatInv_step _ _ hstep ih

/-! ## Claim C1 -/

/-- Clients 1 and 2 both reach the provider-code prompt and both submit
provider 3's public code; all four events are real dispatches (the
contact button from an idle session, then a six-digit code from the
provider-code prompt). -/
def c1w1 : World := start_contact (initWorld demoUsers) 1

def c1w2 : World := process_provider_id nofail c1w1 1 "000003"

def c1w3 : World := start_contact c1w2 2

def c1World : World := process_provider_id nofail c1w3 2 "000003"

lemma c1World_reachable : Reachable demoUsers c1World :=
  Relation.ReflTransGen.tail
    (Relation.ReflTransGen.tail
      (Relation.ReflTransGen.tail
        (Relation.ReflTransGen.tail Relation.ReflTransGen.refl
          (Step.ofStartContact (initWorld demoUsers) 1))
        (Step.ofProcessProviderId c1w1 nofail 1 "000003" (by decide)))
      (Step.ofStartContact c1w2 2))
    (Step.ofProcessProviderId c1w3 nofail 2 "000003" (by decide))

/-- C1, counterexample: the per-provider half of the claim fails. After
two clients submit the same provider's code, the reachable state
`c1World` holds two non-terminal (`is_active`) ChatSessions whose
provider is user 3 — `process_provider_id` checks only the acting
client's side before `create_chat`, never the provider's. -/
theorem c1_per_provider_counterexample :
    Reachable demoUsers c1World ∧ (activeProviderChats c1World.db 3).length = 2 :=
  ⟨c1World_reachable, by decide⟩

/-- C1 (amended): in every reachable system state, every user has at most
one ChatSession in a non-terminal state (`is_active = true`) with that
user as the client; in particular initiating a pairing request never
creates a second non-terminal ChatSession for the initiating client.
The symmetric per-provider bound does not hold (see the
counterexample). -/
theorem c1_client_at_most_one_active (users : List UserRow) (w : World)
    (h : Reachable users w) (u : Nat) :
    (activeClientChats w.db u).length ≤ 1 :=
  ((chatInv_reachable users w h).2 u).1

/-- C1, witness: the amended theorem applied to the concrete reachable
world of the counterexample trace. -/
theorem c1_client_at_most_one_active_witness :
    (activeClientChats c1World.db 1).length ≤ 1 :=
  c1_client_at_most_one_active demoUsers c1World c1World_reachable 1

/-! ## Claim C2 -/

/-- Client 1 requests provider 3 (chat id 1). -/
def c2Setup : World :=
  process_provider_id nofail (start_contact (initWorld demoUsers) 1) 1 "000003"

/-- Provider 3 accepts chat 1 once. -/
def c2Once : World := accept_chat nofail c2Setup 3 1

/-- Provider 3 accepts chat 1 a second time. -/
def c2Twice : World := accept_chat nofail c2Once 3 1

lemma c2Twice_reachable : Reachable demoUsers c2Twice :=
  Relation.ReflTransGen.tail
    (Relation.ReflTransGen.tail
      (Relation.ReflTransGen.tail
        (Relation.ReflTransGen.tail Relation.ReflTransGen.refl
          (Step.ofStartContact (initWorld demoUsers) 1))
        (Step.ofProcessProviderId _ nofail 1 "000003" (by decide)))
      (Step.ofAcceptChat c2Setup nofail 3 1))
    (Step.ofAcceptChat c2Once nofail 3 1)

/-- C2, counterexample: a second Accept after a first successful Accept
is not a stale-reference no-op. Accepting does not change `is_active`,
so the guard matches again and the second Accept re-runs the whole
success path (re-notifying both sides); the stale-reference alert never
appears in the trace. -/
theorem c2_second_accept_counterexample :
    Reachable demoUsers c2Twice ∧
    c2Twice.events.drop c2Once.events.length =
      [.sent 1 "✅ Мастер принял ваш запрос! Теперь вы можете писать друг другу." true,
       .sent 3 "✅ Вы приняли запрос! Теперь вы можете писать клиенту.\nНажмите «Завершить чат», чтобы остановить общение." true,
       .sent 3 "Чат активен." true] ∧
    Ev.sent 3 "Чат уже закрыт или не найден." true ∉ c2Twice.events :=
  ⟨c2Twice_reachable, by decide, by decide⟩

/-- C2 (amended): Accept succeeds only when the acting provider's
current non-terminal ChatSession carries exactly the referenced id; on a
missing or mismatching reference the actor is only told the chat is no
longer available and neither the store nor any session changes. But a
successful Accept leaves the `chats` table unchanged (`is_active` stays
true), so a second Accept after a first successful one repeats the
success path instead of reporting a stale reference. -/
theorem c2_accept_guard (unreach : Nat → Bool) (w : World) (pid chatId : Nat) :
    (get_active_chat_by_provider w.db pid = none →
      accept_chat unreach w pid chatId =
        answer w pid "Чат уже закрыт или не найден.") ∧
    (∀ c, get_active_chat_by_provider w.db pid = some c → c.id ≠ chatId →
      accept_chat unreach w pid chatId =
        answer w pid "Чат уже закрыт или не найден.") ∧
    (∀ c, get_active_chat_by_provider w.db pid = some c → c.id = chatId →
      unreach c.clientId = false → unreach pid = false →
      (accept_chat unreach w pid chatId).db = w.db) := by
  refine ⟨?_, ?_, ?_⟩
  · intro hc
    unfold accept_chat
    rw [hc]
  · intro c hc hid
    unfold accept_chat
    rw [hc]
    have hbne : (c.id != chatId) = true := by simpa using hid
    simp [hbne]
  · intro c hc hid hcu hpu
    unfold accept_chat
    rw [hc]
    have hbne : (c.id != chatId) = false := by simpa using hid
    simp [hbne, hcu, hpu]

/-- C2, witness: on the concrete request-pending world, an Accept with a
wrong id only raises the alert, and a matching Accept leaves the store
unchanged. -/
theorem c2_accept_guard_witness :
    (accept_chat nofail c2Setup 3 99 =
      answer c2Setup 3 "Чат уже закрыт или не найден.") ∧
    (accept_chat nofail c2Setup 3 1).db = c2Setup.db := by
  constructor
  · exact (c2_accept_guard nofail c2Setup 3 99).2.1 ⟨1, 1, 3, true⟩ (by decide) (by decide)
  · exact (c2_accept_guard nofail c2Setup 3 1).2.2 ⟨1, 1, 3, true⟩ (by decide) rfl rfl rfl

/-! ## Claim C3 -/

/-- C3: with no role in the Session payload, the resolver compares the
two unread-notification counts: a positive count on exactly one side
resolves to that side's menu (recording the role); both-zero or
both-positive is ambiguous — the registered user is asked to pick a role
and the session is cleared, no role menu is shown. -/
theorem c3_role_heuristic (w : World) (uid : Nat)
    (hrole : (w.sessions uid).data.userRole = none) :
    (get_unread_count w.db uid .provider > 0 → get_unread_count w.db uid .client = 0 →
      return_to_role_menu w uid none =
        updData (answer w uid "Вы в меню мастера.") uid
          (fun d => { d with userRole := some .provider })) ∧
    (get_unread_count w.db uid .client > 0 → get_unread_count w.db uid .provider = 0 →
      return_to_role_menu w uid none =
        updData (answer w uid "Вы в меню клиента.") uid
          (fun d => { d with userRole := some .client })) ∧
    ((get_unread_count w.db uid .client = 0 ∧ get_unread_count w.db uid .provider = 0) ∨
        (get_unread_count w.db uid .client > 0 ∧ get_unread_count w.db uid .provider > 0) →
      is_user_registered w.db uid = true →
      return_to_role_menu w uid none =
        clearSession (answer w uid "Выберите роль для входа:") uid) := by
  refine ⟨?_, ?_, ?_⟩
  · intro hp hc
    unfold return_to_role_menu
    rw [hrole]
    simp [finishRoleMenu, hp, hc]
  · intro hc hp
    unfold return_to_role_menu
    rw [hrole]
    have : ¬ get_unread_count w.db uid .provider > 0 := by omega
    simp [finishRoleMenu, hp, hc, this]
  · intro hamb hreg
    unfold return_to_role_menu
    rw [hrole]
    rcases hamb with ⟨hc, hp⟩ | ⟨hc, hp⟩
    · simp [hc, hp, hreg]
    · have hc0 : ¬ get_unread_count w.db uid .client = 0 := by omega
      have hp0 : ¬ get_unread_count w.db uid .provider = 0 := by omega
      simp [hc0, hp0, hreg]

/-- A world with one unread provider-role notification for user 1. -/
def c3World : World :=
  { initWorld demoUsers with
      db := create_notification (initWorld demoUsers).db 1 .provider "n1" }

/-- C3, witness: for user 1 with one unread provider notification and no
client notifications, the resolver lands in the provider menu and
records the provider role. -/
theorem c3_role_heuristic_witness :
    return_to_role_menu c3World 1 none =
      updData (answer c3World 1 "Вы в меню мастера.") 1
        (fun d => { d with userRole := some .provider }) :=
  (c3_role_heuristic c3World 1 (by decide)).1 (by decide) (by decide)

/-! ## Fixtures shared by claims C5, C6, C8: an accepted chat between
client 1 and provider 3 (chat id 1), then explicit closes. -/

/-- Chat 1 between client 1 and provider 3, accepted: both sides in
their relay states. -/
def c6Setup : World := accept_chat nofail c2Setup 3 1

lemma c6Setup_reachable : Reachable demoUsers c6Setup :=
  Relation.ReflTransGen.tail
    (Relation.ReflTransGen.tail
      (Relation.ReflTransGen.tail Relation.ReflTransGen.refl
        (Step.ofStartContact (initWorld demoUsers) 1))
      (Step.ofProcessProviderId _ nofail 1 "000003" (by decide)))
    (Step.ofAcceptChat c2Setup nofail 3 1)

/-- Client 1 presses "Завершить чат". -/
def c6AfterClientEnd : World := client_end_chat nofail c6Setup 1

lemma c6AfterClientEnd_reachable : Reachable demoUsers c6AfterClientEnd :=
  Relation.ReflTransGen.tail c6Setup_reachable
    (Step.ofClientEndChat c6Setup nofail 1 (by decide))

/-- Provider 3 then presses "Завершить чат" on the already-closed chat. -/
def c6AfterProviderEnd : World := provider_end_chat nofail c6AfterClientEnd 3

lemma c6AfterProviderEnd_reachable : Reachable demoUsers c6AfterProviderEnd :=
  Relation.ReflTransGen.tail c6AfterClientEnd_reachable
    (Step.ofProviderEndChat c6AfterClientEnd nofail 3 (by decide))

/-! ## Claim C6 -/

/-- C6, counterexample: after client 1 already closed chat 1 (no active
chat remains), provider 3's Close runs the close-and-offer flow again —
the booking offer is sent to the provider a second time, refuting "does
not re-trigger the create-a-booking offer". -/
theorem c6_offer_retriggered_counterexample :
    Reachable demoUsers c6AfterProviderEnd ∧
    get_active_chat_by_client c6AfterClientEnd.db 1 = none ∧
    c6AfterProviderEnd.events.count
      (.sent 3 "Чат с Анна завершён.\nХотите создать запись на услугу для этого клиента?" true) = 2 :=
  ⟨c6AfterProviderEnd_reachable, by decide, by decide⟩

/-- C6 (amended): the store-level Close is idempotent — closing an
already-closed ChatSession does not error and leaves every row with that
id closed — but the close-and-offer flow sends the booking offer to the
provider unconditionally, so a second Close re-triggers the offer. -/
theorem c6_close_idempotent_offer_repeats (db : Db) (i : Nat) (unreach : Nat → Bool)
    (w : World) (chatId pId cId : Nat) (name : String)
    (hname : clientDisplay (close_chat w.db chatId) cId = some name)
    (hpu : unreach pId = false) :
    close_chat (close_chat db i) i = close_chat db i ∧
    (∀ ch ∈ (close_chat db i).chats, ch.id = i → ch.isActive = false) ∧
    Ev.sent pId
        ("Чат с " ++ name ++ " завершён.\nХотите создать запись на услугу для этого клиента?")
        true
      ∈ (close_chat_and_offer_record unreach w chatId pId cId).events := by
  refine ⟨?_, ?_, ?_⟩
  · unfold close_chat
    simp only [List.map_map]
    congr 1
    apply List.map_congr_left
    intro c hc
    by_cases h0 : (c.id == i) = true
    · simp [Function.comp, h0]
    · simp only [Bool.not_eq_true] at h0
      simp [Function.comp, h0]
  · intro ch hch hid
    unfold close_chat at hch
    simp only [List.mem_map] at hch
    obtain ⟨c0, hc0, rfl⟩ := hch
    by_cases h0 : (c0.id == i) = true
    · simp [h0]
    · simp only [Bool.not_eq_true] at h0
      simp only [h0, Bool.false_eq_true, if_false] at hid ⊢
      exact absurd hid (beq_eq_false_iff_ne.mp h0)
  · simp only [close_chat_and_offer_record]
    rw [hname]
    simp [send, hpu]

/-- C6, witness: on the concrete world where chat 1 is already closed,
the amended statement instantiates — the repeated offer is in the trace
of the second close. -/
theorem c6_close_idempotent_offer_repeats_witness :
    close_chat (close_chat c6AfterClientEnd.db 1) 1 = close_chat c6AfterClientEnd.db 1 ∧
    (∀ ch ∈ (close_chat c6AfterClientEnd.db 1).chats, ch.id = 1 → ch.isActive = false) ∧
    Ev.sent 3
        ("Чат с " ++ "Анна" ++ " завершён.\nХотите создать запись на услугу для этого клиента?")
        true
      ∈ (close_chat_and_offer_record nofail c6AfterClientEnd 1 3 1).events :=
  c6_close_idempotent_offer_repeats c6AfterClientEnd.db 1 nofail c6AfterClientEnd 1 3 1
    "Анна" (by decide) rfl

/-! ## Claim C8 -/

/-- C8, counterexample: client 1 had its role recorded (`user_role =
client`) before closing chat 1; the explicit Close wipes the acting
client's whole Session — role included — and does not touch the
provider's Session at all (still in the relay state, chat id still
present). Both halves of the claim fail. -/
theorem c8_close_session_counterexample :
    Reachable demoUsers c6AfterClientEnd ∧
    (c6Setup.sessions 1).data.userRole = some .client ∧
    c6AfterClientEnd.sessions 1 = {} ∧
    (c6AfterClientEnd.sessions 3).fsm = .providerInChat ∧
    (c6AfterClientEnd.sessions 3).data.chatId = some 1 :=
  ⟨c6AfterClientEnd_reachable, by decide, by decide, by decide, by decide⟩

/-- C8 (amended): an explicit Close by either participant clears the
*acting* participant's entire Session — in-chat data and the recorded
role alike — and leaves every other user's Session (in particular the
counterpart's, with its in-chat data) unchanged. -/
theorem c8_close_clears_actor_only (unreach : Nat → Bool) (w : World) (uid v : Nat)
    (hv : v ≠ uid) :
    (client_end_chat unreach w uid).sessions uid = {} ∧
    (client_end_chat unreach w uid).sessions v = w.sessions v ∧
    (provider_end_chat unreach w uid).sessions uid = {} ∧
    (provider_end_chat unreach w uid).sessions v = w.sessions v := by
  have hb : (v == uid) = false := by simpa using hv
  refine ⟨?_, ?_, ?_, ?_⟩
  · unfold client_end_chat
    by_cases hc : (truthy (w.sessions uid).data.chatId &&
        truthy (w.sessions uid).data.partnerId) = true <;>
      simp [hc]
  · unfold client_end_chat
    by_cases hc : (truthy (w.sessions uid).data.chatId &&
        truthy (w.sessions uid).data.partnerId) = true <;>
      simp [hc, sessions_close_chat_and_offer_record, hb]
  · unfold provider_end_chat
    by_cases hc : (truthy (w.sessions uid).data.chatId &&
        truthy (w.sessions uid).data.partnerId) = true <;>
      simp [hc]
  · unfold provider_end_chat
    by_cases hc : (truthy (w.sessions uid).data.chatId &&
        truthy (w.sessions uid).data.partnerId) = true <;>
      simp [hc, sessions_close_chat_and_offer_record, hb]

/-- C8, witness: on the accepted chat, client 1's Close clears session 1
and leaves provider 3's session as it was. -/
theorem c8_close_clears_actor_only_witness :
    (client_end_chat nofail c6Setup 1).sessions 1 = {} ∧
    (client_end_chat nofail c6Setup 1).sessions 3 = c6Setup.sessions 3 ∧
    (provider_end_chat nofail c6Setup 1).sessions 1 = {} ∧
    (provider_end_chat nofail c6Setup 1).sessions 3 = c6Setup.sessions 3 :=
  c8_close_clears_actor_only nofail c6Setup 1 3 (by decide)

/-! ## Claim C5 -/

/-- A transport where exactly user 1 has blocked the bot. -/
def blocked1 : Nat → Bool := fun n => n == 1

/-- Provider 3 relays "привет" over the accepted chat while client 1 is
unreachable. -/
def c5Send : World := forward_from_provider blocked1 c6Setup 3 "привет"

lemma c5Send_reachable : Reachable demoUsers c5Send :=
  Relation.ReflTransGen.tail c6Setup_reachable
    (Step.ofForwardFromProvider c6Setup blocked1 3 "привет" (by decide))

/-- C5, counterexample: when the relay hits an unreachable client, the
implicit Close *does* attempt messages to the unreachable counterpart —
the failing relay itself and then the "Чат с мастером завершён." notice
inside the close routine (its failure is swallowed) — refuting "no
message is attempted to the unreachable counterpart". -/
theorem c5_attempts_to_counterpart_counterexample :
    Reachable demoUsers c5Send ∧
    c5Send.events.drop c6Setup.events.length =
      [.sent 1 "Сообщение от мастера:\n\nпривет" false,
       .sent 3 "Чат с Анна завершён.\nХотите создать запись на услугу для этого клиента?" true,
       .sent 1 "Чат с мастером завершён." false,
       .sent 3 "Клиент заблокировал бота. Чат завершён." true] ∧
    Ev.sent 1 "Чат с мастером завершён." false ∈ c5Send.events :=
  ⟨c5Send_reachable, by decide, by decide⟩

/-- C5 (amended): a relay into an unreachable counterpart closes the
ChatSession, informs the sender that the chat ended, and delivers
nothing to the counterpart — but sends to the counterpart are still
attempted (the failing relay and, on the provider side, a chat-ended
notice whose failure is ignored); the sender's session is cleared. The
two conjunct groups cover the provider-side and client-side relay
handlers. -/
theorem c5_unreachable_counterpart_closes (unreach : Nat → Bool) (w : World)
    (uid p i : Nat) (nameP nameU : String) (t : String)
    (hpartner : (w.sessions uid).data.partnerId = some p) (hp0 : p ≠ 0)
    (hchat : (w.sessions uid).data.chatId = some i) (hi0 : i ≠ 0)
    (hcu : unreach p = true) (hpu : unreach uid = false)
    (hnameP : clientDisplay (close_chat w.db i) p = some nameP)
    (hnameU : clientDisplay (close_chat w.db i) uid = some nameU) :
    ((forward_from_provider unreach w uid t).db = close_chat w.db i ∧
      (forward_from_provider unreach w uid t).sessions = setSession w.sessions uid {} ∧
      (forward_from_provider unreach w uid t).events =
        w.events ++
          [.sent p ("Сообщение от мастера:\n\n" ++ t) false,
           .sent uid ("Чат с " ++ nameP ++ " завершён.\nХотите создать запись на услугу для этого клиента?") true,
           .sent p "Чат с мастером завершён." false,
           .sent uid "Клиент заблокировал бота. Чат завершён." true]) ∧
    ((forward_from_client unreach w uid t).db = close_chat w.db i ∧
      (forward_from_client unreach w uid t).sessions = setSession w.sessions uid {} ∧
      (forward_from_client unreach w uid t).events =
        w.events ++
          [.sent p ("Сообщение от клиента:\n\n" ++ t) false,
           .sent p ("Чат с " ++ nameU ++ " завершён.\nХотите создать запись на услугу для этого клиента?") false,
           .sent uid "Чат с мастером завершён." true,
           .sent uid "Мастер заблокировал бота. Чат завершён." true]) := by
  have hpt : (p != 0) = true := by simpa using hp0
  have hit : (i != 0) = true := by simpa using hi0
  constructor
  · simp only [forward_from_provider, hpartner, hchat, truthy, hpt, hit, Bool.not_true,
      Bool.false_eq_true, if_false, hcu, Option.getD_some, if_true,
      close_chat_and_offer_record, hnameP]
    simp [send, answer, clearSession, hpu, hnameP]
  · simp only [forward_from_client, hpartner, hchat, truthy, hpt, hit, Bool.not_true,
      Bool.false_eq_true, if_false, hcu, Option.getD_some, if_true,
      close_chat_and_offer_record, hnameU]
    simp [send, answer, clearSession, hpu, hcu, hnameU]

/-- C5, witness: the amended statement instantiated on the accepted chat
with client 1 blocked and provider 3 relaying "привет". -/
theorem c5_unreachable_counterpart_closes_witness :
    c5Send.db = close_chat c6Setup.db 1 ∧
    c5Send.sessions = setSession c6Setup.sessions 3 {} ∧
    c5Send.events =
      c6Setup.events ++
        [.sent 1 "Сообщение от мастера:\n\nпривет" false,
         .sent 3 ("Чат с " ++ "Анна" ++ " завершён.\nХотите создать запись на услугу для этого клиента?") true,
         .sent 1 "Чат с мастером завершён." false,
         .sent 3 "Клиент заблокировал бота. Чат завершён." true] :=
  (c5_unreachable_counterpart_closes blocked1 c6Setup 3 1 1 "Анна" "Борис" "привет"
    (by decide) (by decide) (by decide) (by decide) rfl rfl (by decide) (by decide)).1

/-! ## Claim C9 -/

/-- Client 1 submits their own public code "000001" at the provider-code
prompt. -/
def c9SelfPair : World :=
  process_provider_id nofail (start_contact (initWorld demoUsers) 1) 1 "000001"

lemma c9SelfPair_reachable : Reachable demoUsers c9SelfPair :=
  Relation.ReflTransGen.tail
    (Relation.ReflTransGen.tail Relation.ReflTransGen.refl
      (Step.ofStartContact (initWorld demoUsers) 1))
    (Step.ofProcessProviderId _ nofail 1 "000001" (by decide))

/-- C9: the self-pairing guard of `process_provider_id` is commented out
in the source (marked "ОТЛАДКА" — debug), so submitting one's own code
is *not* handled as a failure branch: an active ChatSession with
client = provider = 1 is created, the pairing request is delivered to
the user themselves, and the user enters the in-chat relay state paired
with themselves. -/
theorem c9_self_pairing_proceeds :
    Reachable demoUsers c9SelfPair ∧
    get_active_chat_by_client c9SelfPair.db 1 = some ⟨1, 1, 1, true⟩ ∧
    (c9SelfPair.sessions 1).fsm = .clientInChat ∧
    (c9SelfPair.sessions 1).data.partnerId = some 1 ∧
    Ev.sent 1 "Запрос отправлен мастеру. Ожидайте ответа." true ∈ c9SelfPair.events :=
  ⟨c9SelfPair_reachable, by decide, by decide, by decide, by decide⟩

/-! ## Claim C7 -/

/-- Provider 3 mid-booking: waiting for the cost, with the service name
and counterpart already collected and the provider role recorded (the
state a provider reaches via login → "Добавить запись" → client id →
service name). -/
def c7World : World :=
  { initWorld demoUsers with
      sessions := setSession (initWorld demoUsers).sessions 3
        { fsm := .recWaitingForCost,
          data := { userRole := some .provider, clientTelegramId := some 1,
                    serviceName := some "Стрижка", fromChat := some false } } }

/-- C7: the global cancel command "В меню" sent mid-booking is consumed
by the logout router's catch-all `back_to_menu` handler (the logout
router is included first in `main.py` and its handler has no state
filter), so the workflow handlers' own cancel branches never run: no
Booking is created and the provider menu is shown, but the Session stays
in `waiting_for_cost` with the partial payload intact instead of
returning to Idle with the payload discarded. The last conjunct
evaluates the shadowed in-handler branch of `process_cost`, which
performs exactly the clear-and-keep-provider-role the claim describes. -/
theorem c7_cancel_shadowed_by_menu_handler :
    (dispatchText nofail true (fun _ => true) (fun _ => none) (fun _ => none)
        c7World 3 "В меню").sessions 3 =
      { fsm := .recWaitingForCost,
        data := { userRole := some .provider, clientTelegramId := some 1,
                  serviceName := some "Стрижка", fromChat := some false } } ∧
    (dispatchText nofail true (fun _ => true) (fun _ => none) (fun _ => none)
        c7World 3 "В меню").db.records = [] ∧
    (dispatchText nofail true (fun _ => true) (fun _ => none) (fun _ => none)
        c7World 3 "В меню").events = [.sent 3 "Вы в меню мастера." true] ∧
    (process_cost c7World 3 "В меню").sessions 3 =
      { fsm := .idle, data := { userRole := some .provider } } ∧
    (process_cost c7World 3 "В меню").db.records = [] :=
  ⟨by decide, by decide, by decide, by decide, by decide⟩

/-! ## Claim C10 -/

/-- The notification body does not depend on the freshly inserted
booking row (it reads only the `users` table). -/
lemma recordText_create_service_record (db : Db) (a b : Nat) (sn0 : String)
    (c0 : Nat) (ad0 : String) (dt0 : DateVal) (tm0 : TimeVal) (cm0 : String)
    (cid : Nat) (sn cs ad : String) (dt : DateVal) (tm : TimeVal) (cm : String) :
    recordText (create_service_record db a b sn0 c0 ad0 dt0 tm0 cm0) cid sn cs ad dt tm cm =
      recordText db cid sn cs ad dt tm cm := rfl

/-- C10: committing a booking stores exactly one record, enqueues
exactly one provider-role notification for the acting provider and a
client-role notification for the counterpart exactly when the
counterpart differs from the provider (a self-booking enqueues a single
notification), and the only transport activity is the two confirmations
to the acting provider — no direct send to the counterpart. -/
theorem c10_booking_notifications (w : World) (uid : Nat) (text : String)
    (cid : Nat) (sn cs ad : String) (dt : DateVal) (tm : TimeVal)
    (hnc : text ≠ "В меню")
    (h1 : (w.sessions uid).data.clientTelegramId = some cid)
    (h2 : (w.sessions uid).data.serviceName = some sn)
    (h3 : (w.sessions uid).data.cost = some cs)
    (h4 : (w.sessions uid).data.address = some ad)
    (h5 : (w.sessions uid).data.date = some dt)
    (h6 : (w.sessions uid).data.time = some tm) :
    (process_comments_and_send w uid text).db.records =
      w.db.records ++
        [⟨uid, cid, sn, pyToNat cs, ad, dt, tm,
          if text = "-" then "Комментариев нет" else text, "active"⟩] ∧
    (process_comments_and_send w uid text).db.notifications =
      w.db.notifications ++
        [⟨uid, .provider,
          recordText w.db cid sn cs ad dt tm (if text = "-" then "Комментариев нет" else text),
          w.db.nextStamp, false⟩] ++
        (if cid = uid then []
         else
          [⟨cid, .client,
            recordText w.db cid sn cs ad dt tm (if text = "-" then "Комментариев нет" else text),
            w.db.nextStamp + 1, false⟩]) ∧
    (process_comments_and_send w uid text).events =
      w.events ++
        [.sent uid
          (if cid = uid then "✅ Запись сохранена."
           else "✅ Запись сохранена. Клиент получит уведомление при входе как клиент.")
          true,
         .sent uid "Вы вернулись в меню." true] := by
  have hne : (text == "В меню") = false := by simpa using hnc
  by_cases htx : text = "-" <;> by_cases hcu : cid = uid
  all_goals
    simp only [process_comments_and_send, hne, Bool.false_eq_true, if_false,
      h1, h2, h3, h4, h5, h6, htx, hcu, recordText_create_service_record]
  · simp [create_service_record, create_notification, answer, send, hcu]
  · have hb : (cid != uid) = true := by simpa using hcu
    simp [create_service_record, create_notification, answer, send, hb, hcu]
  · simp [create_service_record, create_notification, answer, send, hcu, htx]
  · have hb : (cid != uid) = true := by simpa using hcu
    simp [create_service_record, create_notification, answer, send, hb, hcu, htx]

/-- Provider 3 at the comments step, booking for client 1, every earlier
field collected. -/
def c10World : World :=
  { initWorld demoUsers with
      sessions := setSession (initWorld demoUsers).sessions 3
        { fsm := .recWaitingForComments,
          data := { userRole := some .provider, clientTelegramId := some 1,
                    serviceName := some "Стрижка", cost := some "1500",
                    address := some "Москва", date := some ⟨15, 12, 2025⟩,
                    time := some ⟨14, 30⟩ } } }

/-- C10, witness: the commit for counterpart 1 ≠ provider 3 stores one
record, enqueues the provider- and client-role notifications, and sends
only the two confirmations to the provider. -/
theorem c10_booking_notifications_witness :
    (process_comments_and_send c10World 3 "-").db.records =
      c10World.db.records ++
        [⟨3, 1, "Стрижка", pyToNat "1500", "Москва", ⟨15, 12, 2025⟩, ⟨14, 30⟩,
          "Комментариев нет", "active"⟩] ∧
    (process_comments_and_send c10World 3 "-").db.notifications =
      c10World.db.notifications ++
        [⟨3, .provider,
          recordText c10World.db 1 "Стрижка" "1500" "Москва" ⟨15, 12, 2025⟩ ⟨14, 30⟩
            "Комментариев нет",
          c10World.db.nextStamp, false⟩] ++
        [⟨1, .client,
          recordText c10World.db 1 "Стрижка" "1500" "Москва" ⟨15, 12, 2025⟩ ⟨14, 30⟩
            "Комментариев нет",
          c10World.db.nextStamp + 1, false⟩] ∧
    (process_comments_and_send c10World 3 "-").events =
      c10World.events ++
        [.sent 3 "✅ Запись сохранена. Клиент получит уведомление при входе как клиент." true,
         .sent 3 "Вы вернулись в меню." true] :=
  c10_booking_notifications c10World 3 "-" 1 "Стрижка" "1500" "Москва" ⟨15, 12, 2025⟩
    ⟨14, 30⟩ (by decide) rfl rfl rfl rfl rfl rfl

/-! ## Claim C4: supporting lemmas -/

lemma mem_insertByStamp (x n : Notification) :
    ∀ l : List Notification, x ∈ insertByStamp n l → x = n ∨ x ∈ l := by
  intro l
  induction l with
  | nil =>
      intro h
      unfold insertByStamp at h
      exact Or.inl (by simpa using h)
  | cons m ms ih =>
      intro hx
      unfold insertByStamp at hx
      by_cases hle : n.createdAt ≤ m.createdAt
      · rw [if_pos hle] at hx
        rcases List.mem_cons.mp hx with rfl | hx
        · exact Or.inl rfl
        · exact Or.inr hx
      · rw [if_neg hle] at hx
        rcases List.mem_cons.mp hx with rfl | hx
        · exact Or.inr (List.mem_cons_self _ _)
        · rcases ih hx with h | h
          · exact Or.inl h
          · exact Or.inr (List.mem_cons_of_mem _ h)

lemma pairwise_insertByStamp (n : Notification) :
    ∀ l : List Notification,
      l.Pairwise (fun a b => a.createdAt ≤ b.createdAt) →
      (insertByStamp n l).Pairwise (fun a b => a.createdAt ≤ b.createdAt) := by
  intro l
  induction l with
  | nil => intro _; simp [insertByStamp]
  | cons m ms ih =>
      intro hp
      unfold insertByStamp
      rcases List.pairwise_cons.mp hp with ⟨hm, hms⟩
      by_cases hle : n.createdAt ≤ m.createdAt
      · rw [if_pos hle]
        refine List.pairwise_cons.mpr ⟨?_, hp⟩
        intro x hx
        rcases List.mem_cons.mp hx with rfl | hx
        · exact hle
        · exact le_trans hle (hm x hx)
      · rw [if_neg hle]
        refine List.pairwise_cons.mpr ⟨?_, ih hms⟩
        intro x hx
        rcases mem_insertByStamp x n ms hx with rfl | hx
        · omega
        · exact hm x hx

lemma pairwise_sortByStamp (l : List Notification) :
    (sortByStamp l).Pairwise (fun a b => a.createdAt ≤ b.createdAt) := by
  induction l with
  | nil => simp [sortByStamp]
  | cons n ns ih => exact pairwise_insertByStamp n _ ih

lemma insertByStamp_ne_nil (n : Notification) (l : List Notification) :
    insertByStamp n l ≠ [] := by
  cases l with
  | nil => simp [insertByStamp]
  | cons m ms =>
      unfold insertByStamp
      by_cases h : n.createdAt ≤ m.createdAt
      · rw [if_pos h]; simp
      · rw [if_neg h]; simp

lemma sortByStamp_eq_nil (l : List Notification) (h : sortByStamp l = []) : l = [] := by
  cases l with
  | nil => rfl
  | cons n ns => exact absurd h (insertByStamp_ne_nil n _)

/-- Marking one `(user, role)` queue empties exactly it… -/
lemma filter_mark_self (uid : Nat) (r : Role) :
    ∀ l : List Notification,
      (l.map fun n =>
          if n.userId == uid && n.role == r && !n.isRead then { n with isRead := true }
          else n).filter
        (fun n => n.userId == uid && n.role == r && !n.isRead) = [] := by
  intro l
  induction l with
  | nil => simp
  | cons n ns ih =>
      simp only [List.map_cons, List.filter_cons]
      by_cases hc : (n.userId == uid && n.role == r && !n.isRead) = true
      · simp only [hc, if_true]
        have hdrop :
            ((({ n with isRead := true } : Notification).userId == uid &&
              ({ n with isRead := true } : Notification).role == r &&
              !({ n with isRead := true } : Notification).isRead)) = false := by
          simp
        simp only [hdrop, Bool.false_eq_true, if_false]
        exact ih
      · simp only [Bool.not_eq_true] at hc
        simp only [hc, Bool.false_eq_true, if_false]
        exact ih

/-- …and leaves every other `(user, role)` queue intact. -/
lemma filter_mark_other (uid : Nat) (r : Role) (v : Nat) (r2 : Role)
    (h : v ≠ uid ∨ r2 ≠ r) :
    ∀ l : List Notification,
      (l.map fun n =>
          if n.userId == uid && n.role == r && !n.isRead then { n with isRead := true }
          else n).filter
          (fun n => n.userId == v && n.role == r2 && !n.isRead) =
        l.filter (fun n => n.userId == v && n.role == r2 && !n.isRead) := by
  intro l
  induction l with
  | nil => simp
  | cons n ns ih =>
      simp only [List.map_cons, List.filter_cons]
      by_cases hc : (n.userId == uid && n.role == r && !n.isRead) = true
      · have hc2 := hc
        simp only [Bool.and_eq_true, beq_iff_eq, Bool.not_eq_true'] at hc2
        have hpn : (n.userId == v && n.role == r2 && !n.isRead) = false := by
          rcases h with h | h
          · have : (n.userId == v) = false := by
              rw [hc2.1.1]
              exact beq_eq_false_iff_ne.mpr fun hq => h hq.symm
            simp [this]
          · have : (n.role == r2) = false := by
              rw [hc2.1.2]
              exact beq_eq_false_iff_ne.mpr fun hq => h hq.symm
            simp [this]
        have hdrop :
            ((({ n with isRead := true } : Notification).userId == v &&
              ({ n with isRead := true } : Notification).role == r2 &&
              !({ n with isRead := true } : Notification).isRead)) = false := by
          simp
        simp only [hc, if_true, hdrop, hpn, Bool.false_eq_true, if_false]
        exact ih
      · simp only [Bool.not_eq_true] at hc
        simp only [hc, Bool.false_eq_true, if_false]
        by_cases hpn : (n.userId == v && n.role == r2 && !n.isRead) = true
        · simp only [hpn, if_true, ih]
        · simp only [Bool.not_eq_true] at hpn
          simp only [hpn, Bool.false_eq_true, if_false]
          exact ih

lemma unreadFor_mark_self (db : Db) (uid : Nat) (r : Role) :
    unreadFor (mark_notifications_as_read db uid r) uid r = [] := by
  unfold unreadFor mark_notifications_as_read
  exact filter_mark_self uid r db.notifications

lemma unreadFor_mark_other (db : Db) (uid : Nat) (r : Role) (v : Nat) (r2 : Role)
    (h : v ≠ uid ∨ r2 ≠ r) :
    unreadFor (mark_notifications_as_read db uid r) v r2 = unreadFor db v r2 := by
  unfold unreadFor mark_notifications_as_read
  exact filter_mark_other uid r v r2 h db.notifications

/-- The trace one notification text contributes: the truncated HTML send
when the markup is accepted, otherwise the failed HTML attempt followed
by the delivered markup-stripped fallback. -/
def renderEvents (htmlOk : String → Bool) (uid : Nat) (n : Notification) : List Ev :=
  if htmlOk (pyTruncate n.text) then [.sent uid (pyTruncate n.text) true]
  else
    [.sent uid (pyTruncate n.text) false,
     .sent uid (pyStripAngle (pyTruncate n.text)) true]

lemma render_foldl (htmlOk : String → Bool) (uid : Nat) :
    ∀ (msgs : List Notification) (w : World),
      (msgs.foldl (fun acc msg => renderNotification htmlOk acc uid msg.text) w).db = w.db ∧
      (msgs.foldl (fun acc msg => renderNotification htmlOk acc uid msg.text) w).sessions
        = w.sessions ∧
      (msgs.foldl (fun acc msg => renderNotification htmlOk acc uid msg.text) w).events =
        w.events ++ (msgs.map (renderEvents htmlOk uid)).flatten := by
  intro msgs
  induction msgs with
  | nil => intro w; simp
  | cons m ms ih =>
      intro w
      simp only [List.foldl_cons, List.map_cons, List.flatten]
      obtain ⟨hdb, hss, hev⟩ := ih (renderNotification htmlOk w uid m.text)
      refine ⟨?_, ?_, ?_⟩
      · rw [hdb]
        unfold renderNotification
        by_cases hh : htmlOk (pyTruncate m.text) = true
        · rw [if_pos hh]; rfl
        · rw [if_neg hh]; rfl
      · rw [hss]
        unfold renderNotification
        by_cases hh : htmlOk (pyTruncate m.text) = true
        · rw [if_pos hh]; rfl
        · rw [if_neg hh]; rfl
      · rw [hev]
        unfold renderNotification renderEvents
        by_cases hh : htmlOk (pyTruncate m.text) = true
        · rw [if_pos hh, if_pos hh]
          simp [answer, send]
        · rw [if_neg hh, if_neg hh]
          simp [answer, send]

lemma pyTruncate_length_le (s : String) : (pyTruncate s).length ≤ 4000 := by
  unfold pyTruncate
  by_cases h : s.length > 4000
  · rw [if_pos h]
    have hlen : 3997 ≤ s.data.length := by
      have : s.length = s.data.length := rfl
      omega
    have h1 : (String.mk (s.data.take 3997) ++ "...").length =
        (s.data.take 3997).length + 3 := by
      rw [String.length_append]
      rfl
    rw [h1, List.length_take]
    omega
  · rw [if_neg h]
    omega

lemma pyStripAngle_length_le (s : String) : (pyStripAngle s).length ≤ s.length := by
  show (s.data.filter _).length ≤ s.data.length
  exact List.length_filter_le _ _

@[simp] lemma events_send (w : World) (d : Nat) (t : String) (b : Bool) :
    (send w d t b).events = w.events ++ [.sent d t b] := rfl

@[simp] lemma events_answer (w : World) (u : Nat) (t : String) :
    (answer w u t).events = w.events ++ [.sent u t true] := rfl

@[simp] lemma events_markRead (w : World) (u : Nat) (r : Role) :
    (markRead w u r).events = w.events ++ [.markedRead u r] := rfl

@[simp] lemma db_markRead (w : World) (u : Nat) (r : Role) :
    (markRead w u r).db = mark_notifications_as_read w.db u r := rfl

@[simp] lemma sessions_markRead (w : World) (u : Nat) (r : Role) :
    (markRead w u r).sessions = w.sessions := rfl

/-- The role-scoped welcome line of a successful login. -/
def welcomeText (r : Role) : String :=
  "✅ Добро пожаловать, " ++
    (if r == .provider then "предоставитель услуги" else "клиент") ++ "!"

/-- Shape of a successful `login_check_password`: authorize, then either
go straight to the menu (empty queue) or render the queue, drain it and
then show the menu. -/
lemma login_success_shape (htmlOk : String → Bool) (w : World) (uid : Nat) (r : Role)
    (hhash : get_password_hash w.db uid ≠ none)
    (hrole : (w.sessions uid).data.role = some r) :
    (get_unread_notifications w.db uid r = [] →
      login_check_password htmlOk true w uid =
        answer (setState w uid .authAuthorized) uid (welcomeText r)) ∧
    (∀ m ms, get_unread_notifications w.db uid r = m :: ms →
      login_check_password htmlOk true w uid =
        answer
          (markRead
            ((m :: ms).foldl (fun acc msg => renderNotification htmlOk acc uid msg.text)
              (answer (setState w uid .authAuthorized) uid
                "У вас есть непрочитанные уведомления:"))
            uid r)
          uid (welcomeText r)) := by
  have hcond : (get_password_hash w.db uid == none || !true) = false := by
    rw [beq_eq_false_iff_ne.mpr hhash]
    rfl
  constructor
  · intro hp
    simp only [login_check_password, hcond, Bool.false_eq_true, if_false, hrole,
      db_setState]
    rw [hp]
    simp [welcomeText]
  · intro m ms hp
    simp only [login_check_password, hcond, Bool.false_eq_true, if_false, hrole,
      db_setState]
    rw [hp]
    simp [welcomeText]

/-- C4: on every successful authentication under a role, the pending
notifications of that `(user, role)` queue are FIFO-sorted by creation
time and rendered one by one — each truncated to the 4000-character
transport bound, and delivered with markup stripped instead of dropped
when the HTML send fails — then the queue is marked read in one batch
strictly after all renders (visible in the trace order), so nothing of
that queue stays pending afterwards while every other `(user, role)`
queue is untouched. -/
theorem c4_login_notification_delivery (htmlOk : String → Bool) (w : World)
    (uid : Nat) (r : Role)
    (hhash : get_password_hash w.db uid ≠ none)
    (hrole : (w.sessions uid).data.role = some r) :
    List.Pairwise (fun a b => a.createdAt ≤ b.createdAt)
      (get_unread_notifications w.db uid r) ∧
    (get_unread_notifications w.db uid r ≠ [] →
      (login_check_password htmlOk true w uid).events =
        w.events ++ [.sent uid "У вас есть непрочитанные уведомления:" true] ++
          ((get_unread_notifications w.db uid r).map (renderEvents htmlOk uid)).flatten ++
          [.markedRead uid r] ++ [.sent uid (welcomeText r) true]) ∧
    (get_unread_notifications w.db uid r = [] →
      (login_check_password htmlOk true w uid).events =
        w.events ++ [.sent uid (welcomeText r) true]) ∧
    unreadFor (login_check_password htmlOk true w uid).db uid r = [] ∧
    (∀ (v : Nat) (r2 : Role), v ≠ uid ∨ r2 ≠ r →
      unreadFor (login_check_password htmlOk true w uid).db v r2 = unreadFor w.db v r2) ∧
    (∀ s : String, (pyTruncate s).length ≤ 4000 ∧
      (pyStripAngle (pyTruncate s)).length ≤ 4000) := by
  obtain ⟨hnil, hcons⟩ := login_success_shape htmlOk w uid r hhash hrole
  refine ⟨pairwise_sortByStamp _, ?_, ?_, ?_, ?_, ?_⟩
  · intro hne
    cases hp : get_unread_notifications w.db uid r with
    | nil => exact absurd hp hne
    | cons m ms =>
        rw [hcons m ms hp]
        obtain ⟨hdb, hss, hev⟩ := render_foldl htmlOk uid (m :: ms)
          (answer (setState w uid .authAuthorized) uid
            "У вас есть непрочитанные уведомления:")
        simp only [events_answer, events_markRead]
        rw [hev]
        simp [List.append_assoc]
  · intro hp
    rw [hnil hp]
    simp
  · cases hp : get_unread_notifications w.db uid r with
    | nil =>
        rw [hnil hp]
        simp only [db_answer, db_setState]
        exact sortByStamp_eq_nil _ hp
    | cons m ms =>
        rw [hcons m ms hp]
        obtain ⟨hdb, _, _⟩ := render_foldl htmlOk uid (m :: ms)
          (answer (setState w uid .authAuthorized) uid
            "У вас есть непрочитанные уведомления:")
        simp only [db_answer, db_markRead]
        rw [hdb]
        simp only [db_answer, db_setState]
        exact unreadFor_mark_self w.db uid r
  · intro v r2 hvr
    cases hp : get_unread_notifications w.db uid r with
    | nil =>
        rw [hnil hp]
        simp only [db_answer, db_setState]
    | cons m ms =>
        rw [hcons m ms hp]
        obtain ⟨hdb, _, _⟩ := render_foldl htmlOk uid (m :: ms)
          (answer (setState w uid .authAuthorized) uid
            "У вас есть непрочитанные уведомления:")
        simp only [db_answer, db_markRead]
        rw [hdb]
        simp only [db_answer, db_setState]
        exact unreadFor_mark_other w.db uid r v r2 hvr
  · intro s
    exact ⟨pyTruncate_length_le s,
      le_trans (pyStripAngle_length_le _) (pyTruncate_length_le s)⟩

/-- User 1 with a stored credential, one unread provider-role
notification carrying markup, at the password prompt with the provider
role chosen. -/
def c4World : World :=
  { initWorld demoUsers with
      db := create_notification (initWorld demoUsers).db 1 .provider "<b>Запись</b>"
      sessions :=
        setSession (initWorld demoUsers).sessions 1
          { fsm := .loginWaitingForPassword,
            data := { role := some .provider, userRole := some .provider,
                      loginAttempts := some 0 } } }

/-- C4, witness: the theorem instantiated on `c4World` — the queue is
rendered then drained, and nothing stays pending. -/
theorem c4_login_notification_delivery_witness :
    (login_check_password (fun _ => true) true c4World 1).events =
      c4World.events ++ [.sent 1 "У вас есть непрочитанные уведомления:" true] ++
        ((get_unread_notifications c4World.db 1 .provider).map
          (renderEvents (fun _ => true) 1)).flatten ++
        [.markedRead 1 .provider] ++ [.sent 1 (welcomeText .provider) true] ∧
    unreadFor (login_check_password (fun _ => true) true c4World 1).db 1 .provider = [] := by
  constructor
  · exact (c4_login_notification_delivery (fun _ => true) c4World 1 .provider
      (by decide) rfl).2.1 (by decide)
  · exact (c4_login_notification_delivery (fun _ => true) c4World 1 .provider
      (by decide) rfl).2.2.2.1

end Secretar
